import Mathlib

/-!
# The forwarding iterator module (`iterator/iterator.c`)

A shallow embedding of `iter_set_fwd`, `iter_init`, `iter_deinit`, `store_rrsets`,
`store_msg`, `iter_operate` and `iter_clear`.

* C structs are Lean structures, C arrays are maps from the index to the element, and a
  pointer that may be `NULL` is an `Option`.
* The block allocated by `iter_init` lives in an explicit `Heap`; reading through a null or
  released pointer is a `Fault`.
* Every call that leaves the file (network send, wire codec, caches, libc `free`) is appended,
  in program order, to a trace of `Call`s.  What such a call returns is taken from `Externals`,
  a record of the collaborators the module is linked against.
-/

namespace Iterator

/-! ## Data model -/

/-- The bytes of an `ldns_buffer`. -/
abbrev ldns_buffer := List Nat

/-- Modelled from the spec: the event enumeration of `util/module.h`, which is not part of
the sources at hand.  The four events that `iter_operate` names, and `module_event_other`
for any other enumerator value. -/
inductive module_ev where
  | module_event_new
  | module_event_timeout
  | module_event_reply
  | module_event_error
  | module_event_other (code : Nat)
  deriving DecidableEq, Repr

/-- Modelled from the spec: the extended module state of `util/module.h`.  The three values
that `iter_operate` assigns, and the initial value a fresh query carries. -/
inductive module_ext_state where
  | module_state_initial
  | module_wait_reply
  | module_error
  | module_finished
  deriving DecidableEq, Repr

/-- Modelled from the spec: the kind of communication point a reply arrived on
(`util/netevent.h`); `iter_operate` only distinguishes `comm_udp` from the rest. -/
inductive comm_point_type where
  | comm_udp
  | comm_tcp
  | comm_other (code : Nat)
  deriving DecidableEq, Repr

/-- Modelled from the spec: `struct comm_point`, reduced to the two fields read here. -/
structure comm_point where
  buffer : ldns_buffer
  type : comm_point_type
  deriving DecidableEq, Repr

/-- Modelled from the spec: `struct comm_reply`; `c` is the communication point. -/
structure comm_reply where
  c : comm_point
  deriving DecidableEq, Repr

/-- Modelled from the spec: `struct query_info`, the name, type and class of a query. -/
structure query_info where
  qname : List Nat
  qtype : Nat
  qclass : Nat
  deriving DecidableEq, Repr

/-- Modelled from the spec: `struct edns_data`, the four fields `iter_operate` writes. -/
structure edns_data where
  edns_version : Nat
  udp_size : Nat
  ext_rcode : Nat
  bits : Nat
  deriving DecidableEq, Repr

/-- Modelled from the spec: `struct ub_packed_rrset_key`.  `id` is the identity tag that
`store_rrsets` copies into the reference; `rk` stands for owner name, type, class and data. -/
structure ub_packed_rrset_key where
  id : Nat
  rk : Nat
  deriving DecidableEq, Repr

/-- Modelled from the spec: `struct rrset_ref`, a key pointer together with the id that the
key had when the reference was made. -/
structure rrset_ref where
  key : ub_packed_rrset_key
  id : Nat
  deriving DecidableEq, Repr

/-- Modelled from the spec: `struct reply_info`.  `rrsets` and `ref` are the C arrays
`rep->rrsets[]` and `rep->ref[]`, as maps from the index. -/
structure reply_info where
  flags : Nat
  ttl : Nat
  rrset_count : Nat
  rrsets : Nat → ub_packed_rrset_key
  ref : Nat → rrset_ref

/-- Modelled from the spec: `struct lruhash_entry`, the hash-table entry embedded in a
message-cache entry. -/
structure lruhash_entry where
  hash : Nat
  deriving DecidableEq, Repr

/-- Modelled from the spec: `struct msgreply_entry`, the message-cache entry built by
`query_info_entrysetup`. -/
structure msgreply_entry where
  key : query_info
  entry : lruhash_entry
  deriving DecidableEq, Repr

/-- Modelled from the spec: the shared message cache (`struct slabhash`), as the sequence of
stored (hash, entry, reply) triples.  How an insert changes it is up to `Externals`. -/
structure slabhash where
  stored : List (Nat × lruhash_entry × reply_info)

/-- Modelled from the spec: the shared rrset cache, as the sequence of stored keys.  How an
update changes it is up to `Externals`. -/
structure rrset_cache where
  stored : List ub_packed_rrset_key
  deriving DecidableEq, Repr

/-- Modelled from the spec: the record allocator `struct alloc_cache`, a handle that is only
passed on. -/
structure alloc_cache where
  handle : Nat
  deriving DecidableEq, Repr

/-- Modelled from the spec: the scratch region of a query, a handle that is only passed on. -/
structure region where
  handle : Nat
  deriving DecidableEq, Repr

/-- The forwarder address field `struct sockaddr_storage fwd_addr`, seen through the
`sockaddr_in` / `sockaddr_in6` casts of `iter_set_fwd`: the family, the two bytes of the port
field in memory order, and the address bytes.  All-zero storage is `sockaddr_storage.zero`. -/
structure sockaddr_storage where
  family : Nat
  port : List Nat
  addr : List Nat
  deriving DecidableEq, Repr

/-- Storage in which every byte is zero (after `calloc` or `memset(sa, 0, len)`). -/
def sockaddr_storage.zero : sockaddr_storage :=
  { family := 0, port := [0, 0], addr := [] }

/-- The two bytes, in memory order, of `htons(p)`: network byte order is most significant
byte first on every platform. -/
def htons (p : Nat) : List Nat :=
  [p / 256 % 256, p % 256]

/-- The port number denoted by the two bytes of a port field. -/
def ntohs (b : List Nat) : Nat :=
  b.getD 0 0 * 256 + b.getD 1 0

/-- Modelled from the spec: `struct iter_env` of `iterator/iterator.h`, the persistent module
state: forwarder address and its length. -/
structure iter_env where
  fwd_addr : sockaddr_storage
  fwd_addrlen : Nat
  deriving DecidableEq, Repr

/-- The block `calloc(1, sizeof(struct iter_env))` returns: all bytes zero. -/
def iter_env.zero : iter_env :=
  { fwd_addr := sockaddr_storage.zero, fwd_addrlen := 0 }

/-- Modelled from the spec: the two configuration items read by `iter_init`. -/
structure config_file where
  fwd_address : Option String
  fwd_port : Int
  deriving DecidableEq, Repr

/-- Modelled from the spec: `struct module_env`.  `modinfo` is the table of per-module
pointers, itself tested against `NULL` by `iter_deinit`; a slot holds the address of the
module's block, or `none` for `NULL`.  The `send_query` function pointer is not a field: a
call through it is recorded as `Call.send_query`. -/
structure module_env where
  cfg : config_file
  msg_cache : slabhash
  rrset_cache : rrset_cache
  alloc : alloc_cache
  modinfo : Option (Nat → Option Nat)

/-- The address of the `alloc` field of an environment, the C expression `&env->alloc`.  It is
a pointer to the field that holds the allocator pointer, not the allocator pointer itself;
`pointee` is what is read through it. -/
structure alloc_field_addr where
  pointee : alloc_cache
  deriving DecidableEq, Repr

/-- The C expression `&env->alloc`. -/
def module_env.alloc_addr (env : module_env) : alloc_field_addr :=
  { pointee := env.alloc }

/-- Modelled from the spec: `struct module_qstate`.  `ext_state` and `minfo` are the arrays
indexed by module id. -/
structure module_qstate where
  qinfo : query_info
  query_hash : Nat
  query_flags : Nat
  edns : edns_data
  buf : ldns_buffer
  reply : comm_reply
  scratch : region
  env : module_env
  ext_state : Nat → module_ext_state
  minfo : Nat → Option Nat

/-- The live `iter_env` blocks of the process, by address. -/
structure Heap where
  blocks : List (Nat × iter_env)
  deriving DecidableEq, Repr

/-- The block at address `p`, if it is live. -/
def Heap.deref (h : Heap) (p : Nat) : Option iter_env :=
  (h.blocks.find? (fun b => b.1 == p)).map (fun b => b.2)

/-- Write `v` at address `p` (allocating the block when it is not live). -/
def Heap.store (h : Heap) (p : Nat) (v : iter_env) : Heap :=
  { blocks := (p, v) :: h.blocks.filter (fun b => b.1 != p) }

/-- Remove the block at address `p`. -/
def Heap.release (h : Heap) (p : Nat) : Heap :=
  { blocks := h.blocks.filter (fun b => b.1 != p) }

/-- Ways in which the C program leaves defined behaviour. -/
inductive Fault where
  | null_deref
  | dangling_deref (p : Nat)
  | double_free (p : Nat)
  deriving DecidableEq, Repr

/-- The calls that leave this file, with the arguments that matter. -/
inductive Call where
  | send_query (buf : ldns_buffer) (addr : sockaddr_storage) (addrlen : Nat)
      (timeout : Nat) (use_tcp : Nat)
  | qinfo_query_encode (buf : ldns_buffer) (qinfo : query_info)
  | reply_info_parse (pkt : ldns_buffer)
  | reply_info_answer_encode (qinfo : query_info) (rep : reply_info) (flags : Nat)
      (udpsize : Nat) (edns : edns_data)
  | reply_info_set_ttls (now : Nat)
  | rrset_cache_update (i : Nat) (ref : rrset_ref) (now : Nat)
  | reply_info_sortref
  | query_info_entrysetup (qinfo : query_info) (hash : Nat)
  | slabhash_insert (hash : Nat) (entry : lruhash_entry) (rep : reply_info)
  | free (p : Nat)

/-- What `reply_info_parse` hands back: its return value and the three out-parameters. -/
structure parse_result where
  r : Int
  qinfo : query_info
  rep : reply_info
  edns : edns_data

/-- The collaborators the module is linked against, none of which is defined in
`iterator.c`: constants of the headers, libc, the wire codec and the caches.  A collaborator
returns what it writes through a pointer argument: the buffer for the two encoders, the
reference and the cache for `rrset_cache_update`, the reply for `reply_info_set_ttls` and
`reply_info_sortref`, the cache for `slabhash_insert`.  The other pointer arguments (the
allocator, the scratch region, the EDNS block given to the answer encoder, the query state
given to `send_query`) are only read.  `reply_info_parse` and `rrset_cache_update` are handed
the allocator pointer `env->alloc`; `slabhash_insert` is handed `&env->alloc`, the address of
the field.  `time` is the value `time(NULL)` returns. -/
structure Externals where
  UDP_QUERY_TIMEOUT : Nat
  TCP_QUERY_TIMEOUT : Nat
  EDNS_ADVERTISED_VERSION : Nat
  EDNS_ADVERTISED_SIZE : Nat
  EDNS_DO : Nat
  AF_INET : Nat
  AF_INET6 : Nat
  sizeof_sockaddr_in : Nat
  sizeof_sockaddr_in6 : Nat
  str_is_ip6 : String → Int
  inet_pton : Nat → String → Int × List Nat
  calloc : Heap → Option Nat
  time : Nat
  LDNS_TC_WIRE : ldns_buffer → Nat
  qinfo_query_encode : ldns_buffer → query_info → ldns_buffer
  reply_info_parse : ldns_buffer → alloc_cache → region → parse_result
  reply_info_answer_encode : query_info → reply_info → Nat → Nat → ldns_buffer → Nat → Nat →
    region → Nat → edns_data → Int × ldns_buffer
  reply_info_set_ttls : reply_info → Nat → reply_info
  rrset_cache_update : rrset_cache → rrset_ref → alloc_cache → Nat →
    Int × rrset_ref × rrset_cache
  reply_info_sortref : reply_info → reply_info
  query_info_entrysetup : query_info → reply_info → Nat → Option msgreply_entry
  slabhash_insert : slabhash → Nat → lruhash_entry → reply_info → alloc_field_addr →
    slabhash

/-! ## Forwarder address -/

/-- The function `iter_set_fwd(ie, ip, port)`: returns the module state as written and the
C return value (`0` on error). -/
def iter_set_fwd (x : Externals) (ie : iter_env) (ip : String) (port : Int) : iter_env × Int :=
  let p : Nat := (port % 65536).toNat
  if x.str_is_ip6 ip ≠ 0 then
    let ie1 : iter_env := { ie with fwd_addrlen := x.sizeof_sockaddr_in6 }
    let sa : sockaddr_storage :=
      { sockaddr_storage.zero with family := x.AF_INET6, port := htons p }
    let res := x.inet_pton sa.family ip
    let ie2 : iter_env := { ie1 with fwd_addr := { sa with addr := res.2 } }
    if res.1 ≤ 0 then (ie2, 0) else (ie2, 1)
  else
    let ie1 : iter_env := { ie with fwd_addrlen := x.sizeof_sockaddr_in }
    let sa : sockaddr_storage :=
      { sockaddr_storage.zero with family := x.AF_INET, port := htons p }
    let res := x.inet_pton sa.family ip
    let ie2 : iter_env := { ie1 with fwd_addr := { sa with addr := res.2 } }
    if res.1 ≤ 0 then (ie2, 0) else (ie2, 1)

/-! ## Module lifecycle -/

/-- The function `iter_init(env, id)`: the heap and environment afterwards and the C return
value.  A null module table makes the store `env->modinfo[id] = ...` a fault. -/
def iter_init (x : Externals) (h : Heap) (env : module_env) (id : Nat) :
    Except Fault (Heap × module_env × Int) :=
  match x.calloc h with
  | none => .ok (h, env, 0)
  | some p =>
    let h1 := h.store p iter_env.zero
    match env.modinfo with
    | none => .error Fault.null_deref
    | some tbl =>
      let env1 : module_env := { env with modinfo := some (Function.update tbl id (some p)) }
      match env.cfg.fwd_address with
      | none => .ok (h1, env1, 1)
      | some s =>
        if s ≠ "" then
          let res := iter_set_fwd x iter_env.zero s env.cfg.fwd_port
          if res.2 = 0 then .ok (h1.store p res.1, env1, 0)
          else .ok (h1.store p res.1, env1, 1)
        else .ok (h1, env1, 1)

/-- The libc call `free(p)` on a non-null pointer: releasing a block that is not live is a
fault. -/
def free (h : Heap) (p : Nat) : Except Fault Heap :=
  match h.deref p with
  | none => .error (Fault.double_free p)
  | some _ => .ok (h.release p)

/-- The function `iter_deinit(env, id)`: the heap afterwards and the calls made.  The
environment is not written, so it is not returned. -/
def iter_deinit (h : Heap) (env : Option module_env) (id : Nat) :
    Except Fault (Heap × List Call) :=
  match env with
  | none => .ok (h, [])
  | some e =>
    match e.modinfo with
    | none => .ok (h, [])
    | some tbl =>
      match tbl id with
      | none => .ok (h, [])
      | some p =>
        match free h p with
        | .error f => .error f
        | .ok h1 => .ok (h1, [Call.free p])

/-! ## Cache commit path -/

/-- The body of the loop of `store_rrsets`, run for the indices `i, i+1, ..., i+k-1`.  The
bound `rep->rrset_count` is not written by the body, so the loop runs a fixed number of
times.  The reference passed by address is both read and written by the cache. -/
def store_rrsets_loop (x : Externals) (alloc : alloc_cache) (now : Nat) :
    Nat → Nat → reply_info → rrset_cache → List Call → reply_info × rrset_cache × List Call
  | 0, _, rep, rc, tr => (rep, rc, tr)
  | k + 1, i, rep, rc, tr =>
    let ref_in : rrset_ref := { key := rep.rrsets i, id := (rep.rrsets i).id }
    let res := x.rrset_cache_update rc ref_in alloc now
    let rep1 : reply_info := { rep with ref := Function.update rep.ref i res.2.1 }
    let rep2 : reply_info :=
      if res.1 ≠ 0 then { rep1 with rrsets := Function.update rep1.rrsets i (rep1.ref i).key }
      else rep1
    store_rrsets_loop x alloc now k (i + 1) rep2 res.2.2
      (tr ++ [Call.rrset_cache_update i ref_in now])

/-- The function `store_rrsets(env, rep, now)`. -/
def store_rrsets (x : Externals) (env : module_env) (rep : reply_info) (now : Nat) :
    reply_info × rrset_cache × List Call :=
  store_rrsets_loop x env.alloc now rep.rrset_count 0 rep env.rrset_cache []

/-- The function `store_msg(qstate, qinfo, rep)`: the query state afterwards (only the caches
of its environment can differ) and the calls made. -/
def store_msg (x : Externals) (qstate : module_qstate) (qinfo : query_info) (rep : reply_info) :
    module_qstate × List Call :=
  let now : Nat := x.time % 2 ^ 32
  let rep1 := x.reply_info_set_ttls rep now
  let res := store_rrsets x qstate.env rep1 now
  let rep2 := res.1
  let env1 : module_env := { qstate.env with rrset_cache := res.2.1 }
  let tr1 : List Call := Call.reply_info_set_ttls now :: res.2.2
  if rep2.ttl = 0 then ({ qstate with env := env1 }, tr1)
  else
    let rep3 := x.reply_info_sortref rep2
    match x.query_info_entrysetup qinfo rep3 qstate.query_hash with
    | none =>
      ({ qstate with env := env1 },
        tr1 ++ [Call.reply_info_sortref, Call.query_info_entrysetup qinfo qstate.query_hash])
    | some e =>
      ({ qstate with env := { env1 with
            msg_cache := x.slabhash_insert env1.msg_cache qstate.query_hash e.entry rep3
              env1.alloc_addr } },
        tr1 ++ [Call.reply_info_sortref, Call.query_info_entrysetup qinfo qstate.query_hash,
          Call.slabhash_insert qstate.query_hash e.entry rep3])

/-! ## Query state machine -/

/-- Read `ie->fwd_addr` and `ie->fwd_addrlen` through the pointer `ie`. -/
def deref_iter_env (h : Heap) (ie : Option Nat) : Except Fault iter_env :=
  match ie with
  | none => .error Fault.null_deref
  | some p =>
    match h.deref p with
    | none => .error (Fault.dangling_deref p)
    | some o => .ok o

/-- The function `iter_operate(qstate, event, id)`: the query state afterwards and the calls
made, in order. -/
def iter_operate (x : Externals) (h : Heap) (qstate : module_qstate) (event : module_ev)
    (id : Nat) : Except Fault (module_qstate × List Call) :=
  let env := qstate.env
  match env.modinfo with
  | none => .error Fault.null_deref
  | some tbl =>
    let ie := tbl id
    if event = module_ev.module_event_error then
      .ok ({ qstate with
              ext_state := Function.update qstate.ext_state id module_ext_state.module_error },
            [])
    else if event = module_ev.module_event_new then
      match deref_iter_env h ie with
      | .error f => .error f
      | .ok o =>
        .ok ({ qstate with
                ext_state :=
                  Function.update qstate.ext_state id module_ext_state.module_wait_reply,
                minfo := Function.update qstate.minfo id none },
              [Call.send_query qstate.buf o.fwd_addr o.fwd_addrlen x.UDP_QUERY_TIMEOUT 0])
    else if event = module_ev.module_event_timeout then
      .ok ({ qstate with
              ext_state := Function.update qstate.ext_state id module_ext_state.module_error },
            [])
    else if event = module_ev.module_event_reply then
      let us := qstate.edns.udp_size
      if x.LDNS_TC_WIRE qstate.reply.c.buffer ≠ 0 ∧
          qstate.reply.c.type = comm_point_type.comm_udp then
        let buf1 := x.qinfo_query_encode qstate.buf qstate.qinfo
        match deref_iter_env h ie with
        | .error f => .error f
        | .ok o =>
          .ok ({ qstate with buf := buf1 },
                [Call.qinfo_query_encode qstate.buf qstate.qinfo,
                 Call.send_query buf1 o.fwd_addr o.fwd_addrlen x.TCP_QUERY_TIMEOUT 1])
      else
        let pr := x.reply_info_parse qstate.reply.c.buffer env.alloc qstate.scratch
        if pr.r ≠ 0 then
          .ok ({ qstate with
                  ext_state :=
                    Function.update qstate.ext_state id module_ext_state.module_error },
                [Call.reply_info_parse qstate.reply.c.buffer])
        else
          let edns1 : edns_data :=
            { edns_version := x.EDNS_ADVERTISED_VERSION,
              udp_size := x.EDNS_ADVERTISED_SIZE,
              ext_rcode := 0,
              bits := qstate.edns.bits &&& x.EDNS_DO }
          let enc := x.reply_info_answer_encode pr.qinfo pr.rep 0 qstate.query_flags
            qstate.buf 0 0 qstate.scratch us edns1
          let q1 : module_qstate := { qstate with edns := edns1, buf := enc.2 }
          let tr1 : List Call :=
            [Call.reply_info_parse qstate.reply.c.buffer,
             Call.reply_info_answer_encode pr.qinfo pr.rep qstate.query_flags us edns1]
          if enc.1 = 0 then
            .ok ({ q1 with
                    ext_state :=
                      Function.update q1.ext_state id module_ext_state.module_error },
                  tr1)
          else
            let sm := store_msg x q1 pr.qinfo pr.rep
            .ok ({ sm.1 with
                    ext_state :=
                      Function.update sm.1.ext_state id module_ext_state.module_finished },
                  tr1 ++ sm.2)
    else
      .ok ({ qstate with
              ext_state := Function.update qstate.ext_state id module_ext_state.module_error },
            [])

/-- The function `iter_clear(qstate, id)` on a possibly null query state: the query state
afterwards and the calls made (the body makes none). -/
def iter_clear (qstate : Option module_qstate) (id : Nat) :
    Option module_qstate × List Call :=
  match qstate with
  | none => (none, [])
  | some q => (some { q with minfo := Function.update q.minfo id none }, [])

/-! ## Reading a trace -/

/-- Whether a call is a network send. -/
def Call.is_send : Call → Bool
  | Call.send_query _ _ _ _ _ => true
  | _ => false

/-- Whether a call decodes a response or encodes a query or an answer. -/
def Call.is_codec : Call → Bool
  | Call.qinfo_query_encode _ _ => true
  | Call.reply_info_parse _ => true
  | Call.reply_info_answer_encode _ _ _ _ _ => true
  | _ => false

/-- Whether a call decodes a response. -/
def Call.is_decode : Call → Bool
  | Call.reply_info_parse _ => true
  | _ => false

/-- Whether a call is an rrset-cache update. -/
def Call.is_update : Call → Bool
  | Call.rrset_cache_update _ _ _ => true
  | _ => false

/-- Whether a call is a message-cache insert. -/
def Call.is_insert : Call → Bool
  | Call.slabhash_insert _ _ _ => true
  | _ => false

/-- Whether a call builds a message-cache entry. -/
def Call.is_entrysetup : Call → Bool
  | Call.query_info_entrysetup _ _ => true
  | _ => false

/-- Whether a call puts the references of a reply in canonical order. -/
def Call.is_sortref : Call → Bool
  | Call.reply_info_sortref => true
  | _ => false

/-- Whether a call touches the rrset cache or the message cache. -/
def Call.is_cache (c : Call) : Bool :=
  c.is_update || c.is_insert

/-- Whether a call is a network send with the reliable-transport flag set. -/
def Call.is_tcp_send : Call → Bool
  | Call.send_query _ _ _ _ use_tcp => use_tcp != 0
  | _ => false

/-- Whether a call releases memory. -/
def Call.is_free : Call → Bool
  | Call.free _ => true
  | _ => false

/-! ## Names for the intermediate values of the reply path

Each is the expression that `iter_operate` / `store_msg` computes at that point. -/

/-- The test of `iter_operate` for a truncated reply that arrived over UDP. -/
def truncated_udp (x : Externals) (q : module_qstate) : Prop :=
  x.LDNS_TC_WIRE q.reply.c.buffer ≠ 0 ∧ q.reply.c.type = comm_point_type.comm_udp

instance (x : Externals) (q : module_qstate) : Decidable (truncated_udp x q) := by
  unfold truncated_udp
  infer_instance

/-- What `reply_info_parse` returns on the reply buffer of the query. -/
def decoded (x : Externals) (q : module_qstate) : parse_result :=
  x.reply_info_parse q.reply.c.buffer q.env.alloc q.scratch

/-- The EDNS parameters of the query after the four assignments that follow a successful
decode. -/
def reset_edns (x : Externals) (q : module_qstate) : edns_data :=
  { edns_version := x.EDNS_ADVERTISED_VERSION,
    udp_size := x.EDNS_ADVERTISED_SIZE,
    ext_rcode := 0,
    bits := q.edns.bits &&& x.EDNS_DO }

/-- What `reply_info_answer_encode` returns for the decoded reply. -/
def encoded (x : Externals) (q : module_qstate) : Int × ldns_buffer :=
  x.reply_info_answer_encode (decoded x q).qinfo (decoded x q).rep 0 q.query_flags q.buf 0 0
    q.scratch q.edns.udp_size (reset_edns x q)

/-- The value of `now` in `store_msg`. -/
def time_now (x : Externals) : Nat :=
  x.time % 2 ^ 32

/-- The decoded reply after `reply_info_set_ttls`. -/
def with_ttls (x : Externals) (q : module_qstate) : reply_info :=
  x.reply_info_set_ttls (decoded x q).rep (time_now x)

/-- The reply after `store_rrsets`. -/
def merged (x : Externals) (q : module_qstate) : reply_info :=
  (store_rrsets x q.env (with_ttls x q) (time_now x)).1

/-- The reply after `reply_info_sortref`, as it is handed to the message cache. -/
def sorted (x : Externals) (q : module_qstate) : reply_info :=
  x.reply_info_sortref (merged x q)

/-- What `query_info_entrysetup` returns in `store_msg`. -/
def entry_built (x : Externals) (q : module_qstate) : Option msgreply_entry :=
  x.query_info_entrysetup (decoded x q).qinfo (sorted x q) q.query_hash

/-- The rrset-cache updates that `store_rrsets` makes for a reply: one per index below
`rrset_count`, in index order, each on a reference bound to the rrset at that index. -/
def expected_updates (rep : reply_info) (now : Nat) : List Call :=
  (List.range rep.rrset_count).map
    (fun i => Call.rrset_cache_update i { key := rep.rrsets i, id := (rep.rrsets i).id } now)

/-- The branches of `iter_operate` that assign `module_error`: the external error event, a
timeout, an event that is none of the four named ones, and a reply, not truncated over UDP,
whose decode or whose answer encode fails. -/
def failure_path (x : Externals) (q : module_qstate) : module_ev → Prop
  | module_ev.module_event_error => True
  | module_ev.module_event_timeout => True
  | module_ev.module_event_other _ => True
  | module_ev.module_event_new => False
  | module_ev.module_event_reply =>
    ¬ truncated_udp x q ∧ ((decoded x q).r ≠ 0 ∨ (encoded x q).1 = 0)

/-- The rrset cache as it is when the loop of `store_rrsets` reaches index `j`, for a reply
`rep` and a cache `rc` at the start of the loop. -/
def rrset_cache_at (x : Externals) (alloc : alloc_cache) (now : Nat) (rep : reply_info)
    (rc : rrset_cache) : Nat → rrset_cache
  | 0 => rc
  | j + 1 =>
    (x.rrset_cache_update (rrset_cache_at x alloc now rep rc j)
      { key := rep.rrsets j, id := (rep.rrsets j).id } alloc now).2.2

/-- What `rrset_cache_update` returns at index `j` of the loop of `store_rrsets`: it is called
on a reference whose key is rrset `j` of the reply and whose id is the id of that rrset. -/
def update_at (x : Externals) (alloc : alloc_cache) (now : Nat) (rep : reply_info)
    (rc : rrset_cache) (j : Nat) : Int × rrset_ref × rrset_cache :=
  x.rrset_cache_update (rrset_cache_at x alloc now rep rc j)
    { key := rep.rrsets j, id := (rep.rrsets j).id } alloc now

/-- Modelled from the spec: the event substrate, which is not part of `iterator.c`.  It
delivers the events of one query in arrival order; for each it stores the reply it carries in
`qstate->reply` and invokes `iter_operate`.  The calls of all invocations are collected in
order; a fault ends the run. -/
def run_events (x : Externals) (h : Heap) (id : Nat) :
    module_qstate → List (module_ev × comm_reply) → Except Fault (module_qstate × List Call)
  | q, [] => .ok (q, [])
  | q, item :: rest =>
    match iter_operate x h { q with reply := item.2 } item.1 id with
    | .error f => .error f
    | .ok r1 =>
      match run_events x h id r1.1 rest with
      | .error f => .error f
      | .ok r2 => .ok (r2.1, r1.2 ++ r2.2)

/-- Whether a delivered event is a reply that is truncated and arrived over UDP. -/
def is_upgrade (x : Externals) (item : module_ev × comm_reply) : Bool :=
  item.1 == module_ev.module_event_reply && x.LDNS_TC_WIRE item.2.c.buffer != 0 &&
    item.2.c.type == comm_point_type.comm_udp

/-- Whether a delivered event is `New`. -/
def is_new (item : module_ev × comm_reply) : Bool :=
  item.1 == module_ev.module_event_new

/-- The number of sends and the number of sends with the reliable-transport flag in the
calls of a run, when the run did not fault. -/
def send_counts (r : Except Fault (module_qstate × List Call)) : Option (Nat × Nat) :=
  match r with
  | .error _ => none
  | .ok res => some ((res.2.filter Call.is_send).length, (res.2.filter Call.is_tcp_send).length)

/-- The extended state of module `id` at the end of a run, when the run did not fault. -/
def final_state (r : Except Fault (module_qstate × List Call)) (id : Nat) :
    Option module_ext_state :=
  match r with
  | .error _ => none
  | .ok res => some (res.1.ext_state id)

/-! ## A concrete configuration

A toy wire format and toy caches, used to run the definitions on explicit inputs. -/

/-- Toy decoder: a buffer shorter than a DNS header is rejected; otherwise the reply has two
rrsets and the message TTL is byte 12 of the buffer. -/
def toy_parse (pkt : ldns_buffer) : parse_result :=
  { r := if pkt.length < 12 then 1 else 0,
    qinfo := { qname := [3, 119, 119, 119, 0], qtype := 1, qclass := 1 },
    rep := { flags := 0, ttl := pkt.getD 12 0, rrset_count := 2,
             rrsets := fun i => { id := i + 1, rk := 10 + i },
             ref := fun _ => { key := { id := 0, rk := 0 }, id := 0 } },
    edns := { edns_version := 0, udp_size := 512, ext_rcode := 0, bits := 0 } }

/-- Toy rrset cache: an rrset whose `rk` is already stored is reported as cached and the
reference is rebound to the stored key; otherwise the key is stored. -/
def toy_rrset_update (rc : rrset_cache) (ref : rrset_ref) :
    Int × rrset_ref × rrset_cache :=
  match rc.stored.find? (fun k => k.rk == ref.key.rk) with
  | some k => (1, { key := k, id := k.id }, rc)
  | none => (0, ref, { stored := ref.key :: rc.stored })

/-- A configuration with Linux address-family constants, clock value `t`, a codec that
cannot encode with query flags `0`, and an entry constructor that fails for hash `0`. -/
def toy (t : Nat) : Externals :=
  { UDP_QUERY_TIMEOUT := 4,
    TCP_QUERY_TIMEOUT := 30,
    EDNS_ADVERTISED_VERSION := 0,
    EDNS_ADVERTISED_SIZE := 4096,
    EDNS_DO := 32768,
    AF_INET := 2,
    AF_INET6 := 10,
    sizeof_sockaddr_in := 16,
    sizeof_sockaddr_in6 := 28,
    str_is_ip6 := fun s => if ':' ∈ s.data then 1 else 0,
    inet_pton := fun af s =>
      if af = 2 ∧ s = "127.0.0.1" then (1, [127, 0, 0, 1])
      else if af = 10 ∧ s = "::1" then (1, [0, 0, 0, 0, 0, 0, 0, 0, 0, 0, 0, 0, 0, 0, 0, 1])
      else (0, []),
    calloc := fun h => some (h.blocks.length + 1),
    time := t,
    LDNS_TC_WIRE := fun b => b.getD 2 0 &&& 2,
    qinfo_query_encode := fun _ qi => qi.qname ++ [qi.qtype, qi.qclass],
    reply_info_parse := fun pkt _ _ => toy_parse pkt,
    reply_info_answer_encode := fun qi _ _ flags _ _ _ _ _ _ =>
      (if flags = 0 then 0 else 1, qi.qname),
    reply_info_set_ttls := fun rep now => { rep with ttl := rep.ttl + now },
    rrset_cache_update := fun rc ref _ _ => toy_rrset_update rc ref,
    reply_info_sortref := fun rep => rep,
    query_info_entrysetup := fun qi _ hash =>
      if hash = 0 then none else some { key := qi, entry := { hash := hash } },
    slabhash_insert := fun c hash e rep _ => { stored := (hash, e, rep) :: c.stored } }

/-- A forwarder block as `iter_set_fwd` leaves it for `127.0.0.1`, port 53. -/
def toy_iter_env : iter_env :=
  { fwd_addr := { family := 2, port := [0, 53], addr := [127, 0, 0, 1] }, fwd_addrlen := 16 }

/-- A heap holding the forwarder block at address 1. -/
def toy_heap : Heap :=
  { blocks := [(1, toy_iter_env)] }

/-- An environment whose module slot 0 points at address 1. -/
def toy_env : module_env :=
  { cfg := { fwd_address := some "127.0.0.1", fwd_port := 53 },
    msg_cache := { stored := [] },
    rrset_cache := { stored := [] },
    alloc := { handle := 0 },
    modinfo := some (fun i => if i = 0 then some 1 else none) }

/-- A query waiting for a reply, with the given reply buffer, transport and query hash. -/
def toy_qstate (pkt : ldns_buffer) (t : comm_point_type) (hash : Nat) : module_qstate :=
  { qinfo := { qname := [3, 119, 119, 119, 0], qtype := 1, qclass := 1 },
    query_hash := hash,
    query_flags := 256,
    edns := { edns_version := 0, udp_size := 1280, ext_rcode := 0, bits := 32768 },
    buf := [],
    reply := { c := { buffer := pkt, type := t } },
    scratch := { handle := 0 },
    env := toy_env,
    ext_state := fun _ => module_ext_state.module_wait_reply,
    minfo := fun _ => some 7 }

/-- A reply buffer with the TC bit set. -/
def toy_pkt_tc : ldns_buffer :=
  [0, 1, 2, 0, 0, 1, 0, 0, 0, 0, 0, 0]

/-- A reply buffer without the TC bit and with message TTL byte `ttl`. -/
def toy_pkt (ttl : Nat) : ldns_buffer :=
  [0, 1, 0, 0, 0, 1, 0, 2, 0, 0, 0, 0, ttl]

/-- A truncated reply that arrived over UDP. -/
def toy_reply_tc : comm_reply :=
  { c := { buffer := toy_pkt_tc, type := comm_point_type.comm_udp } }

/-- The configuration `toy t` on a machine that is out of memory. -/
def toy_no_memory (t : Nat) : Externals :=
  { toy t with calloc := fun _ => none }

/-- An environment without a forwarder in its configuration and with an empty module table. -/
def toy_env_no_fwd : module_env :=
  { cfg := { fwd_address := none, fwd_port := 53 },
    msg_cache := { stored := [] },
    rrset_cache := { stored := [] },
    alloc := { handle := 0 },
    modinfo := some (fun _ => none) }

/-! ## Facts about the loop of `store_rrsets` -/

theorem store_rrsets_loop_frame (x : Externals) (alloc : alloc_cache) (now : Nat) (k : Nat) :
    ∀ (i : Nat) (rep : reply_info) (rc : rrset_cache) (tr : List Call),
      (store_rrsets_loop x alloc now k i rep rc tr).1.ttl = rep.ttl ∧
      (store_rrsets_loop x alloc now k i rep rc tr).1.rrset_count = rep.rrset_count ∧
      (store_rrsets_loop x alloc now k i rep rc tr).1.flags = rep.flags := by
  induction k with
  | zero => intro i rep rc tr; simp [store_rrsets_loop]
  | succ k ih =>
    intro i rep rc tr
    simp only [store_rrsets_loop]
    refine ⟨?_, ?_, ?_⟩
    · rw [(ih _ _ _ _).1]; split <;> rfl
    · rw [(ih _ _ _ _).2.1]; split <;> rfl
    · rw [(ih _ _ _ _).2.2]; split <;> rfl

theorem store_rrsets_loop_trace (x : Externals) (alloc : alloc_cache) (now : Nat) (k : Nat) :
    ∀ (i : Nat) (rep : reply_info) (rc : rrset_cache) (tr : List Call),
      (store_rrsets_loop x alloc now k i rep rc tr).2.2 =
        tr ++ (List.range' i k).map
          (fun j => Call.rrset_cache_update j
            { key := rep.rrsets j, id := (rep.rrsets j).id } now) := by
  induction k with
  | zero => intro i rep rc tr; simp [store_rrsets_loop]
  | succ k ih =>
    intro i rep rc tr
    simp only [store_rrsets_loop]
    rw [ih, List.range'_succ, List.map_cons, List.append_assoc, List.singleton_append]
    congr 2
    apply List.map_congr_left
    intro j hj
    have hji : j ≠ i := by
      have := (List.mem_range'_1.mp hj).1
      omega
    split <;> simp [Function.update, hji]

theorem store_rrsets_trace (x : Externals) (env : module_env) (rep : reply_info) (now : Nat) :
    (store_rrsets x env rep now).2.2 = expected_updates rep now := by
  unfold store_rrsets expected_updates
  rw [store_rrsets_loop_trace, List.nil_append, List.range_eq_range']

theorem store_rrsets_ttl (x : Externals) (env : module_env) (rep : reply_info) (now : Nat) :
    (store_rrsets x env rep now).1.ttl = rep.ttl :=
  (store_rrsets_loop_frame x env.alloc now rep.rrset_count 0 rep env.rrset_cache []).1

theorem filter_update_expected (rep : reply_info) (now : Nat) :
    (expected_updates rep now).filter Call.is_update = expected_updates rep now := by
  apply List.filter_eq_self.mpr
  intro c hc
  simp only [expected_updates, List.mem_map] at hc
  obtain ⟨i, _, rfl⟩ := hc
  rfl

theorem filter_insert_expected (rep : reply_info) (now : Nat) :
    (expected_updates rep now).filter Call.is_insert = [] := by
  apply List.filter_eq_nil_iff.mpr
  intro c hc
  simp only [expected_updates, List.mem_map] at hc
  obtain ⟨i, _, rfl⟩ := hc
  simp [Call.is_insert]

theorem filter_entrysetup_expected (rep : reply_info) (now : Nat) :
    (expected_updates rep now).filter Call.is_entrysetup = [] := by
  apply List.filter_eq_nil_iff.mpr
  intro c hc
  simp only [expected_updates, List.mem_map] at hc
  obtain ⟨i, _, rfl⟩ := hc
  simp [Call.is_entrysetup]

theorem filter_send_expected (rep : reply_info) (now : Nat) :
    (expected_updates rep now).filter Call.is_send = [] := by
  apply List.filter_eq_nil_iff.mpr
  intro c hc
  simp only [expected_updates, List.mem_map] at hc
  obtain ⟨i, _, rfl⟩ := hc
  simp [Call.is_send]

/-! ## The reply path of `iter_operate`, case by case -/

theorem iter_operate_reply_parse_fail (x : Externals) (h : Heap) (q : module_qstate) (id : Nat)
    (tbl : Nat → Option Nat) (htbl : q.env.modinfo = some tbl)
    (hnot : ¬ truncated_udp x q) (hparse : (decoded x q).r ≠ 0) :
    iter_operate x h q module_ev.module_event_reply id =
      .ok ({ q with ext_state := Function.update q.ext_state id module_ext_state.module_error },
           [Call.reply_info_parse q.reply.c.buffer]) := by
  unfold truncated_udp at hnot
  unfold decoded at hparse
  simp only [iter_operate, htbl]
  simp [hnot, hparse]

theorem iter_operate_reply_encode_fail (x : Externals) (h : Heap) (q : module_qstate) (id : Nat)
    (tbl : Nat → Option Nat) (htbl : q.env.modinfo = some tbl)
    (hnot : ¬ truncated_udp x q) (hparse : (decoded x q).r = 0) (henc : (encoded x q).1 = 0) :
    iter_operate x h q module_ev.module_event_reply id =
      .ok ({ q with edns := reset_edns x q, buf := (encoded x q).2,
                    ext_state := Function.update q.ext_state id module_ext_state.module_error },
           [Call.reply_info_parse q.reply.c.buffer,
            Call.reply_info_answer_encode (decoded x q).qinfo (decoded x q).rep q.query_flags
              q.edns.udp_size (reset_edns x q)]) := by
  unfold truncated_udp at hnot
  unfold encoded reset_edns decoded at henc
  unfold decoded at hparse
  simp only [iter_operate, htbl]
  simp [hnot, hparse, henc, encoded, reset_edns, decoded]

theorem iter_operate_reply_store (x : Externals) (h : Heap) (q : module_qstate) (id : Nat)
    (tbl : Nat → Option Nat) (htbl : q.env.modinfo = some tbl)
    (hnot : ¬ truncated_udp x q) (hparse : (decoded x q).r = 0) (henc : (encoded x q).1 ≠ 0) :
    iter_operate x h q module_ev.module_event_reply id =
      .ok ({ (store_msg x { q with edns := reset_edns x q, buf := (encoded x q).2 }
                (decoded x q).qinfo (decoded x q).rep).1 with
              ext_state := Function.update
                (store_msg x { q with edns := reset_edns x q, buf := (encoded x q).2 }
                  (decoded x q).qinfo (decoded x q).rep).1.ext_state
                id module_ext_state.module_finished },
           [Call.reply_info_parse q.reply.c.buffer,
            Call.reply_info_answer_encode (decoded x q).qinfo (decoded x q).rep q.query_flags
              q.edns.udp_size (reset_edns x q)] ++
           (store_msg x { q with edns := reset_edns x q, buf := (encoded x q).2 }
              (decoded x q).qinfo (decoded x q).rep).2) := by
  unfold truncated_udp at hnot
  unfold encoded reset_edns decoded at henc
  unfold decoded at hparse
  simp only [iter_operate, htbl]
  simp [hnot, hparse, henc, encoded, reset_edns, decoded]

/-! ## `store_msg`, case by case -/

theorem store_msg_ttl_zero (x : Externals) (q : module_qstate) (qi : query_info)
    (rep : reply_info) (httl : (x.reply_info_set_ttls rep (time_now x)).ttl = 0) :
    store_msg x q qi rep =
      ({ q with env := { q.env with rrset_cache :=
            (store_rrsets x q.env (x.reply_info_set_ttls rep (time_now x)) (time_now x)).2.1 } },
       Call.reply_info_set_ttls (time_now x) ::
         expected_updates (x.reply_info_set_ttls rep (time_now x)) (time_now x)) := by
  have ht : x.time % 2 ^ 32 = time_now x := rfl
  simp only [store_msg, ht, store_rrsets_ttl, store_rrsets_trace, httl, if_true]

theorem store_msg_no_entry (x : Externals) (q : module_qstate) (qi : query_info)
    (rep : reply_info) (httl : (x.reply_info_set_ttls rep (time_now x)).ttl ≠ 0)
    (hentry : x.query_info_entrysetup qi
      (x.reply_info_sortref
        (store_rrsets x q.env (x.reply_info_set_ttls rep (time_now x)) (time_now x)).1)
      q.query_hash = none) :
    store_msg x q qi rep =
      ({ q with env := { q.env with rrset_cache :=
            (store_rrsets x q.env (x.reply_info_set_ttls rep (time_now x)) (time_now x)).2.1 } },
       Call.reply_info_set_ttls (time_now x) ::
         expected_updates (x.reply_info_set_ttls rep (time_now x)) (time_now x) ++
         [Call.reply_info_sortref, Call.query_info_entrysetup qi q.query_hash]) := by
  have ht : x.time % 2 ^ 32 = time_now x := rfl
  simp only [store_msg, ht, store_rrsets_ttl, store_rrsets_trace, httl, if_false, hentry,
    List.cons_append]

theorem store_msg_insert (x : Externals) (q : module_qstate) (qi : query_info)
    (rep : reply_info) (e : msgreply_entry)
    (httl : (x.reply_info_set_ttls rep (time_now x)).ttl ≠ 0)
    (hentry : x.query_info_entrysetup qi
      (x.reply_info_sortref
        (store_rrsets x q.env (x.reply_info_set_ttls rep (time_now x)) (time_now x)).1)
      q.query_hash = some e) :
    store_msg x q qi rep =
      ({ q with env := { q.env with
            rrset_cache :=
              (store_rrsets x q.env (x.reply_info_set_ttls rep (time_now x)) (time_now x)).2.1,
            msg_cache := x.slabhash_insert q.env.msg_cache q.query_hash e.entry
              (x.reply_info_sortref
                (store_rrsets x q.env (x.reply_info_set_ttls rep (time_now x))
                  (time_now x)).1)
              q.env.alloc_addr } },
       Call.reply_info_set_ttls (time_now x) ::
         expected_updates (x.reply_info_set_ttls rep (time_now x)) (time_now x) ++
         [Call.reply_info_sortref, Call.query_info_entrysetup qi q.query_hash,
          Call.slabhash_insert q.query_hash e.entry
            (x.reply_info_sortref
              (store_rrsets x q.env (x.reply_info_set_ttls rep (time_now x))
                (time_now x)).1)]) := by
  have ht : x.time % 2 ^ 32 = time_now x := rfl
  simp only [store_msg, ht, store_rrsets_ttl, store_rrsets_trace, httl, if_false, hentry,
    List.cons_append]
  rfl

/-! ## The other paths of `iter_operate` -/

theorem iter_operate_new_eq (x : Externals) (h : Heap) (q : module_qstate) (id : Nat)
    (tbl : Nat → Option Nat) (p : Nat) (ie : iter_env)
    (htbl : q.env.modinfo = some tbl) (hslot : tbl id = some p) (hie : h.deref p = some ie) :
    iter_operate x h q module_ev.module_event_new id =
      .ok ({ q with
              ext_state := Function.update q.ext_state id module_ext_state.module_wait_reply,
              minfo := Function.update q.minfo id none },
           [Call.send_query q.buf ie.fwd_addr ie.fwd_addrlen x.UDP_QUERY_TIMEOUT 0]) := by
  simp only [iter_operate, htbl, hslot, deref_iter_env, hie]
  simp

theorem iter_operate_tc_eq (x : Externals) (h : Heap) (q : module_qstate) (id : Nat)
    (tbl : Nat → Option Nat) (p : Nat) (ie : iter_env)
    (htbl : q.env.modinfo = some tbl) (hslot : tbl id = some p) (hie : h.deref p = some ie)
    (htc : truncated_udp x q) :
    iter_operate x h q module_ev.module_event_reply id =
      .ok ({ q with buf := x.qinfo_query_encode q.buf q.qinfo },
           [Call.qinfo_query_encode q.buf q.qinfo,
            Call.send_query (x.qinfo_query_encode q.buf q.qinfo) ie.fwd_addr ie.fwd_addrlen
              x.TCP_QUERY_TIMEOUT 1]) := by
  unfold truncated_udp at htc
  simp only [iter_operate, htbl, hslot, deref_iter_env, hie]
  simp [htc]

theorem iter_operate_timeout_eq (x : Externals) (h : Heap) (q : module_qstate) (id : Nat)
    (tbl : Nat → Option Nat) (htbl : q.env.modinfo = some tbl) :
    iter_operate x h q module_ev.module_event_timeout id =
      .ok ({ q with ext_state := Function.update q.ext_state id module_ext_state.module_error },
           []) := by
  simp only [iter_operate, htbl]
  simp

theorem iter_operate_error_eq (x : Externals) (h : Heap) (q : module_qstate) (id : Nat)
    (tbl : Nat → Option Nat) (htbl : q.env.modinfo = some tbl) :
    iter_operate x h q module_ev.module_event_error id =
      .ok ({ q with ext_state := Function.update q.ext_state id module_ext_state.module_error },
           []) := by
  simp only [iter_operate, htbl]
  simp

theorem iter_operate_other_eq (x : Externals) (h : Heap) (q : module_qstate) (id : Nat)
    (code : Nat) (tbl : Nat → Option Nat) (htbl : q.env.modinfo = some tbl) :
    iter_operate x h q (module_ev.module_event_other code) id =
      .ok ({ q with ext_state := Function.update q.ext_state id module_ext_state.module_error },
           []) := by
  simp only [iter_operate, htbl]
  simp

/-! ## Transitions of the query state machine -/

/-- C1: on a `New` event, with the module's forwarder block live, `iter_operate` makes exactly
one call, a `send_query` over UDP (flag 0) to the stored forwarder address and length with
`UDP_QUERY_TIMEOUT`; it makes no codec or cache call, and it leaves the extended state at
`module_wait_reply` and the private slot `minfo[id]` empty. -/
theorem iter_operate_new_sends_once (x : Externals) (h : Heap) (q : module_qstate) (id : Nat)
    (tbl : Nat → Option Nat) (p : Nat) (ie : iter_env)
    (htbl : q.env.modinfo = some tbl) (hslot : tbl id = some p) (hie : h.deref p = some ie) :
    ∃ q' tr, iter_operate x h q module_ev.module_event_new id = .ok (q', tr) ∧
      tr = [Call.send_query q.buf ie.fwd_addr ie.fwd_addrlen x.UDP_QUERY_TIMEOUT 0] ∧
      (tr.filter Call.is_send).length = 1 ∧
      (∀ c ∈ tr, c.is_codec = false ∧ c.is_cache = false) ∧
      q'.ext_state id = module_ext_state.module_wait_reply ∧
      q'.minfo id = none := by
  refine ⟨_, _, iter_operate_new_eq x h q id tbl p ie htbl hslot hie, rfl, ?_, ?_, ?_, ?_⟩
  · simp [Call.is_send]
  · simp [Call.is_codec, Call.is_cache, Call.is_update, Call.is_insert]
  · simp
  · simp

theorem iter_operate_new_sends_once_witness :
    toy_env.modinfo = some (fun i => if i = 0 then some 1 else none) ∧
    toy_heap.deref 1 = some toy_iter_env ∧
    ∃ q' tr, iter_operate (toy 1000) toy_heap (toy_qstate [] comm_point_type.comm_udp 77)
        module_ev.module_event_new 0 = .ok (q', tr) ∧
      tr = [Call.send_query [] toy_iter_env.fwd_addr toy_iter_env.fwd_addrlen 4 0] ∧
      (tr.filter Call.is_send).length = 1 ∧
      (∀ c ∈ tr, c.is_codec = false ∧ c.is_cache = false) ∧
      q'.ext_state 0 = module_ext_state.module_wait_reply ∧
      q'.minfo 0 = none :=
  ⟨rfl, by decide,
    iter_operate_new_sends_once (toy 1000) toy_heap (toy_qstate [] comm_point_type.comm_udp 77)
      0 (fun i => if i = 0 then some 1 else none) 1 toy_iter_env rfl rfl (by decide)⟩

theorem iter_operate_commit_eq (x : Externals) (h : Heap) (q : module_qstate) (id : Nat)
    (tbl : Nat → Option Nat) (e : msgreply_entry)
    (htbl : q.env.modinfo = some tbl) (hnot : ¬ truncated_udp x q)
    (hparse : (decoded x q).r = 0) (henc : (encoded x q).1 ≠ 0)
    (httl : (with_ttls x q).ttl ≠ 0) (hentry : entry_built x q = some e) :
    iter_operate x h q module_ev.module_event_reply id =
      .ok ({ q with
              edns := reset_edns x q, buf := (encoded x q).2,
              env := { q.env with
                rrset_cache := (store_rrsets x q.env (with_ttls x q) (time_now x)).2.1,
                msg_cache := x.slabhash_insert q.env.msg_cache q.query_hash e.entry
                  (sorted x q) q.env.alloc_addr },
              ext_state := Function.update q.ext_state id module_ext_state.module_finished },
           [Call.reply_info_parse q.reply.c.buffer,
            Call.reply_info_answer_encode (decoded x q).qinfo (decoded x q).rep q.query_flags
              q.edns.udp_size (reset_edns x q),
            Call.reply_info_set_ttls (time_now x)] ++
           expected_updates (with_ttls x q) (time_now x) ++
           [Call.reply_info_sortref,
            Call.query_info_entrysetup (decoded x q).qinfo q.query_hash,
            Call.slabhash_insert q.query_hash e.entry (sorted x q)]) := by
  have hs := store_msg_insert x { q with edns := reset_edns x q, buf := (encoded x q).2 }
    (decoded x q).qinfo (decoded x q).rep e httl hentry
  rw [iter_operate_reply_store x h q id tbl htbl hnot hparse henc, hs]
  rfl

theorem iter_operate_no_entry_eq (x : Externals) (h : Heap) (q : module_qstate) (id : Nat)
    (tbl : Nat → Option Nat)
    (htbl : q.env.modinfo = some tbl) (hnot : ¬ truncated_udp x q)
    (hparse : (decoded x q).r = 0) (henc : (encoded x q).1 ≠ 0)
    (httl : (with_ttls x q).ttl ≠ 0) (hentry : entry_built x q = none) :
    iter_operate x h q module_ev.module_event_reply id =
      .ok ({ q with
              edns := reset_edns x q, buf := (encoded x q).2,
              env := { q.env with
                rrset_cache := (store_rrsets x q.env (with_ttls x q) (time_now x)).2.1 },
              ext_state := Function.update q.ext_state id module_ext_state.module_finished },
           [Call.reply_info_parse q.reply.c.buffer,
            Call.reply_info_answer_encode (decoded x q).qinfo (decoded x q).rep q.query_flags
              q.edns.udp_size (reset_edns x q),
            Call.reply_info_set_ttls (time_now x)] ++
           expected_updates (with_ttls x q) (time_now x) ++
           [Call.reply_info_sortref,
            Call.query_info_entrysetup (decoded x q).qinfo q.query_hash]) := by
  have hs := store_msg_no_entry x { q with edns := reset_edns x q, buf := (encoded x q).2 }
    (decoded x q).qinfo (decoded x q).rep httl hentry
  rw [iter_operate_reply_store x h q id tbl htbl hnot hparse henc, hs]
  rfl

theorem iter_operate_ttl_zero_eq (x : Externals) (h : Heap) (q : module_qstate) (id : Nat)
    (tbl : Nat → Option Nat)
    (htbl : q.env.modinfo = some tbl) (hnot : ¬ truncated_udp x q)
    (hparse : (decoded x q).r = 0) (henc : (encoded x q).1 ≠ 0)
    (httl : (with_ttls x q).ttl = 0) :
    iter_operate x h q module_ev.module_event_reply id =
      .ok ({ q with
              edns := reset_edns x q, buf := (encoded x q).2,
              env := { q.env with
                rrset_cache := (store_rrsets x q.env (with_ttls x q) (time_now x)).2.1 },
              ext_state := Function.update q.ext_state id module_ext_state.module_finished },
           [Call.reply_info_parse q.reply.c.buffer,
            Call.reply_info_answer_encode (decoded x q).qinfo (decoded x q).rep q.query_flags
              q.edns.udp_size (reset_edns x q),
            Call.reply_info_set_ttls (time_now x)] ++
           expected_updates (with_ttls x q) (time_now x)) := by
  have hs := store_msg_ttl_zero x { q with edns := reset_edns x q, buf := (encoded x q).2 }
    (decoded x q).qinfo (decoded x q).rep httl
  rw [iter_operate_reply_store x h q id tbl htbl hnot hparse henc, hs]
  rfl

/-! ## Transitions on a reply -/

/-- C2: a `Reply` event that is not truncated-over-UDP, that decodes and encodes, whose message
TTL after `reply_info_set_ttls` is positive and for which the cache entry is built, ends in
`module_finished`; the calls are, in order, the decode, the encode, `reply_info_set_ttls`, one
`rrset_cache_update` per index below `rrset_count`, `reply_info_sortref`, the entry setup, and
one `slabhash_insert` with the query's hash and the sorted reply; there is no send.  The
message cache afterwards is what that insert returns, called as in the source with the
address of the environment's allocator field, `&env->alloc`. -/
theorem iter_operate_reply_commits (x : Externals) (h : Heap) (q : module_qstate) (id : Nat)
    (tbl : Nat → Option Nat) (e : msgreply_entry)
    (htbl : q.env.modinfo = some tbl) (hnot : ¬ truncated_udp x q)
    (hparse : (decoded x q).r = 0) (henc : (encoded x q).1 ≠ 0)
    (httl : 0 < (with_ttls x q).ttl) (hentry : entry_built x q = some e) :
    ∃ q' tr, iter_operate x h q module_ev.module_event_reply id = .ok (q', tr) ∧
      q'.ext_state id = module_ext_state.module_finished ∧
      tr = [Call.reply_info_parse q.reply.c.buffer,
            Call.reply_info_answer_encode (decoded x q).qinfo (decoded x q).rep q.query_flags
              q.edns.udp_size (reset_edns x q),
            Call.reply_info_set_ttls (time_now x)] ++
           expected_updates (with_ttls x q) (time_now x) ++
           [Call.reply_info_sortref,
            Call.query_info_entrysetup (decoded x q).qinfo q.query_hash,
            Call.slabhash_insert q.query_hash e.entry (sorted x q)] ∧
      tr.filter Call.is_update = expected_updates (with_ttls x q) (time_now x) ∧
      tr.filter Call.is_insert = [Call.slabhash_insert q.query_hash e.entry (sorted x q)] ∧
      tr.filter Call.is_send = [] ∧
      q'.env.msg_cache =
        x.slabhash_insert q.env.msg_cache q.query_hash e.entry (sorted x q)
          q.env.alloc_addr := by
  refine ⟨_, _, iter_operate_commit_eq x h q id tbl e htbl hnot hparse henc
    (Nat.pos_iff_ne_zero.mp httl) hentry, ?_, rfl, ?_, ?_, ?_, rfl⟩
  · simp
  · simp only [List.filter_append, filter_update_expected]
    simp [Call.is_update]
  · simp only [List.filter_append, filter_insert_expected]
    simp [Call.is_insert]
  · simp only [List.filter_append, filter_send_expected]
    simp [Call.is_send]

theorem iter_operate_reply_commits_witness :
    toy_env.modinfo = some (fun i => if i = 0 then some 1 else none) ∧
    ¬ truncated_udp (toy 1000) (toy_qstate (toy_pkt 60) comm_point_type.comm_udp 77) ∧
    (decoded (toy 1000) (toy_qstate (toy_pkt 60) comm_point_type.comm_udp 77)).r = 0 ∧
    (encoded (toy 1000) (toy_qstate (toy_pkt 60) comm_point_type.comm_udp 77)).1 ≠ 0 ∧
    0 < (with_ttls (toy 1000) (toy_qstate (toy_pkt 60) comm_point_type.comm_udp 77)).ttl ∧
    ∃ q' tr, iter_operate (toy 1000) toy_heap (toy_qstate (toy_pkt 60) comm_point_type.comm_udp 77)
        module_ev.module_event_reply 0 = .ok (q', tr) ∧
      q'.ext_state 0 = module_ext_state.module_finished ∧
      tr.filter Call.is_update =
        expected_updates (with_ttls (toy 1000)
          (toy_qstate (toy_pkt 60) comm_point_type.comm_udp 77)) (time_now (toy 1000)) ∧
      (tr.filter Call.is_insert).length = 1 ∧
      tr.filter Call.is_send = [] :=
  ⟨rfl, by decide, by decide, by decide, by decide,
    match iter_operate_reply_commits (toy 1000) toy_heap
        (toy_qstate (toy_pkt 60) comm_point_type.comm_udp 77) 0
        (fun i => if i = 0 then some 1 else none)
        { key := { qname := [3, 119, 119, 119, 0], qtype := 1, qclass := 1 },
          entry := { hash := 77 } }
        rfl (by decide) (by decide) (by decide) (by decide) rfl with
    | ⟨q', tr, hrun, hfin, _, hupd, hins, hsend, _⟩ =>
      ⟨q', tr, hrun, hfin, hupd, by rw [hins]; rfl, hsend⟩⟩

/-- C3: a `Reply` event whose buffer has the TC bit set and which arrived over UDP, with the
module's forwarder block live: `iter_operate` re-encodes the original query into the query
buffer and then makes exactly one `send_query` with flag 1 to the forwarder address with
`TCP_QUERY_TIMEOUT`; the response is not decoded, no cache call is made, and the EDNS
parameters, the environment (both caches) and the whole extended-state array are as on entry. -/
theorem iter_operate_truncated_udp_resends (x : Externals) (h : Heap) (q : module_qstate)
    (id : Nat) (tbl : Nat → Option Nat) (p : Nat) (ie : iter_env)
    (htbl : q.env.modinfo = some tbl) (hslot : tbl id = some p) (hie : h.deref p = some ie)
    (htc : x.LDNS_TC_WIRE q.reply.c.buffer ≠ 0)
    (hudp : q.reply.c.type = comm_point_type.comm_udp) :
    ∃ q' tr, iter_operate x h q module_ev.module_event_reply id = .ok (q', tr) ∧
      tr = [Call.qinfo_query_encode q.buf q.qinfo,
            Call.send_query (x.qinfo_query_encode q.buf q.qinfo) ie.fwd_addr ie.fwd_addrlen
              x.TCP_QUERY_TIMEOUT 1] ∧
      q'.buf = x.qinfo_query_encode q.buf q.qinfo ∧
      (tr.filter Call.is_send).length = 1 ∧
      (∀ c ∈ tr, c.is_decode = false ∧ c.is_cache = false) ∧
      q'.edns = q.edns ∧
      q'.env = q.env ∧
      q'.ext_state = q.ext_state := by
  refine ⟨_, _, iter_operate_tc_eq x h q id tbl p ie htbl hslot hie ⟨htc, hudp⟩, rfl, rfl,
    ?_, ?_, rfl, rfl, rfl⟩
  · simp [Call.is_send]
  · simp [Call.is_decode, Call.is_cache, Call.is_update, Call.is_insert]

theorem iter_operate_truncated_udp_resends_witness :
    toy_env.modinfo = some (fun i => if i = 0 then some 1 else none) ∧
    toy_heap.deref 1 = some toy_iter_env ∧
    (toy 1000).LDNS_TC_WIRE toy_pkt_tc ≠ 0 ∧
    ∃ q' tr, iter_operate (toy 1000) toy_heap (toy_qstate toy_pkt_tc comm_point_type.comm_udp 77)
        module_ev.module_event_reply 0 = .ok (q', tr) ∧
      tr = [Call.qinfo_query_encode [] { qname := [3, 119, 119, 119, 0], qtype := 1, qclass := 1 },
            Call.send_query [3, 119, 119, 119, 0, 1, 1] toy_iter_env.fwd_addr
              toy_iter_env.fwd_addrlen 30 1] ∧
      q'.buf = [3, 119, 119, 119, 0, 1, 1] ∧
      (tr.filter Call.is_send).length = 1 ∧
      (∀ c ∈ tr, c.is_decode = false ∧ c.is_cache = false) ∧
      q'.edns = (toy_qstate toy_pkt_tc comm_point_type.comm_udp 77).edns ∧
      q'.env = toy_env ∧
      q'.ext_state = fun _ => module_ext_state.module_wait_reply :=
  ⟨rfl, by decide, by decide,
    iter_operate_truncated_udp_resends (toy 1000) toy_heap
      (toy_qstate toy_pkt_tc comm_point_type.comm_udp 77) 0
      (fun i => if i = 0 then some 1 else none) 1 toy_iter_env rfl rfl (by decide)
      (by decide) rfl⟩

/-- C4: on a `Timeout` event, whatever the extended state on entry (so in particular in
`module_wait_reply`), `iter_operate` sets the extended state to `module_error` and makes no
call at all: no send, no codec call, no cache call. -/
theorem iter_operate_timeout_is_error (x : Externals) (h : Heap) (q : module_qstate) (id : Nat)
    (tbl : Nat → Option Nat) (htbl : q.env.modinfo = some tbl) :
    ∃ q' tr, iter_operate x h q module_ev.module_event_timeout id = .ok (q', tr) ∧
      q'.ext_state id = module_ext_state.module_error ∧
      tr = [] ∧
      tr.filter Call.is_send = [] ∧
      (∀ c ∈ tr, c.is_codec = false ∧ c.is_cache = false) ∧
      q'.env = q.env := by
  refine ⟨_, _, iter_operate_timeout_eq x h q id tbl htbl, ?_, rfl, rfl, ?_, rfl⟩
  · simp
  · simp

theorem iter_operate_timeout_is_error_witness :
    toy_env.modinfo = some (fun i => if i = 0 then some 1 else none) ∧
    (toy_qstate [] comm_point_type.comm_udp 77).ext_state 0 =
      module_ext_state.module_wait_reply ∧
    ∃ q' tr, iter_operate (toy 1000) toy_heap (toy_qstate [] comm_point_type.comm_udp 77)
        module_ev.module_event_timeout 0 = .ok (q', tr) ∧
      q'.ext_state 0 = module_ext_state.module_error ∧
      tr = [] ∧
      tr.filter Call.is_send = [] ∧
      (∀ c ∈ tr, c.is_codec = false ∧ c.is_cache = false) ∧
      q'.env = toy_env :=
  ⟨rfl, rfl,
    iter_operate_timeout_is_error (toy 1000) toy_heap
      (toy_qstate [] comm_point_type.comm_udp 77) 0
      (fun i => if i = 0 then some 1 else none) rfl⟩

/-- C5: a `Reply` event that is not truncated-over-UDP and whose decode fails
(`reply_info_parse` returns non-zero) ends in `module_error`; the decode is the only call, so
there is no `rrset_cache_update`, no `slabhash_insert` and no send; the environment (both
caches) and the EDNS parameters are as on entry. -/
theorem iter_operate_parse_failure (x : Externals) (h : Heap) (q : module_qstate) (id : Nat)
    (tbl : Nat → Option Nat) (htbl : q.env.modinfo = some tbl)
    (hnot : ¬ truncated_udp x q)
    (hparse : (x.reply_info_parse q.reply.c.buffer q.env.alloc q.scratch).r ≠ 0) :
    ∃ q' tr, iter_operate x h q module_ev.module_event_reply id = .ok (q', tr) ∧
      q'.ext_state id = module_ext_state.module_error ∧
      tr = [Call.reply_info_parse q.reply.c.buffer] ∧
      tr.filter Call.is_update = [] ∧
      tr.filter Call.is_insert = [] ∧
      tr.filter Call.is_send = [] ∧
      q'.env = q.env ∧
      q'.edns = q.edns := by
  refine ⟨_, _, iter_operate_reply_parse_fail x h q id tbl htbl hnot hparse, ?_, rfl, ?_, ?_,
    ?_, rfl, rfl⟩
  · simp
  · simp [Call.is_update]
  · simp [Call.is_insert]
  · simp [Call.is_send]

theorem iter_operate_parse_failure_witness :
    toy_env.modinfo = some (fun i => if i = 0 then some 1 else none) ∧
    ¬ truncated_udp (toy 1000) (toy_qstate [0, 1] comm_point_type.comm_udp 77) ∧
    ((toy 1000).reply_info_parse [0, 1] toy_env.alloc { handle := 0 }).r ≠ 0 ∧
    ∃ q' tr, iter_operate (toy 1000) toy_heap (toy_qstate [0, 1] comm_point_type.comm_udp 77)
        module_ev.module_event_reply 0 = .ok (q', tr) ∧
      q'.ext_state 0 = module_ext_state.module_error ∧
      tr = [Call.reply_info_parse [0, 1]] ∧
      tr.filter Call.is_update = [] ∧
      tr.filter Call.is_insert = [] ∧
      tr.filter Call.is_send = [] ∧
      q'.env = toy_env ∧
      q'.edns = { edns_version := 0, udp_size := 1280, ext_rcode := 0, bits := 32768 } :=
  ⟨rfl, by decide, by decide,
    iter_operate_parse_failure (toy 1000) toy_heap
      (toy_qstate [0, 1] comm_point_type.comm_udp 77) 0
      (fun i => if i = 0 then some 1 else none) rfl (by decide) (by decide)⟩

/-- C6: a `Reply` event that is not truncated-over-UDP, that decodes and encodes, and whose
message TTL after `reply_info_set_ttls` is 0, ends in `module_finished`; every index below
`rrset_count` has had its `rrset_cache_update`, but there is no `slabhash_insert` and no entry
setup, and the message cache is as on entry. -/
theorem iter_operate_ttl_zero_not_cached (x : Externals) (h : Heap) (q : module_qstate)
    (id : Nat) (tbl : Nat → Option Nat) (htbl : q.env.modinfo = some tbl)
    (hnot : ¬ truncated_udp x q)
    (hparse : (decoded x q).r = 0) (henc : (encoded x q).1 ≠ 0)
    (httl : (with_ttls x q).ttl = 0) :
    ∃ q' tr, iter_operate x h q module_ev.module_event_reply id = .ok (q', tr) ∧
      q'.ext_state id = module_ext_state.module_finished ∧
      tr.filter Call.is_insert = [] ∧
      tr.filter Call.is_entrysetup = [] ∧
      tr.filter Call.is_update = expected_updates (with_ttls x q) (time_now x) ∧
      q'.env.msg_cache = q.env.msg_cache := by
  refine ⟨_, _, iter_operate_ttl_zero_eq x h q id tbl htbl hnot hparse henc httl, ?_, ?_, ?_,
    ?_, rfl⟩
  · simp
  · simp only [List.filter_append, filter_insert_expected]
    simp [Call.is_insert]
  · simp only [List.filter_append, filter_entrysetup_expected]
    simp [Call.is_entrysetup]
  · simp only [List.filter_append, filter_update_expected]
    simp [Call.is_update]

theorem iter_operate_ttl_zero_not_cached_witness :
    toy_env.modinfo = some (fun i => if i = 0 then some 1 else none) ∧
    ¬ truncated_udp (toy 0) (toy_qstate (toy_pkt 0) comm_point_type.comm_tcp 77) ∧
    (decoded (toy 0) (toy_qstate (toy_pkt 0) comm_point_type.comm_tcp 77)).r = 0 ∧
    (encoded (toy 0) (toy_qstate (toy_pkt 0) comm_point_type.comm_tcp 77)).1 ≠ 0 ∧
    (with_ttls (toy 0) (toy_qstate (toy_pkt 0) comm_point_type.comm_tcp 77)).ttl = 0 ∧
    ∃ q' tr, iter_operate (toy 0) toy_heap (toy_qstate (toy_pkt 0) comm_point_type.comm_tcp 77)
        module_ev.module_event_reply 0 = .ok (q', tr) ∧
      q'.ext_state 0 = module_ext_state.module_finished ∧
      tr.filter Call.is_insert = [] ∧
      tr.filter Call.is_entrysetup = [] ∧
      tr.filter Call.is_update =
        expected_updates (with_ttls (toy 0)
          (toy_qstate (toy_pkt 0) comm_point_type.comm_tcp 77)) (time_now (toy 0)) ∧
      q'.env.msg_cache = toy_env.msg_cache :=
  ⟨rfl, by decide, by decide, by decide, by decide,
    iter_operate_ttl_zero_not_cached (toy 0) toy_heap
      (toy_qstate (toy_pkt 0) comm_point_type.comm_tcp 77) 0
      (fun i => if i = 0 then some 1 else none) rfl (by decide) (by decide) (by decide)
      (by decide)⟩

/-! ## The message-cache commit invariant -/

/-- C10: whatever the event and the query state, a run of `iter_operate` makes at most one
`slabhash_insert`; and if it makes one, then the event was a `Reply` that was not
truncated-over-UDP, the decode and the encode succeeded, the message TTL computed by
`reply_info_set_ttls` is positive, and the insert is the last call, preceded by an
`rrset_cache_update` for every index below `rrset_count`. -/
theorem msg_cache_commit_invariant (x : Externals) (h : Heap) (q : module_qstate)
    (ev : module_ev) (id : Nat) (q' : module_qstate) (tr : List Call)
    (hrun : iter_operate x h q ev id = .ok (q', tr)) :
    (tr.filter Call.is_insert).length ≤ 1 ∧
    (tr.filter Call.is_insert ≠ [] →
      ev = module_ev.module_event_reply ∧ ¬ truncated_udp x q ∧
      (decoded x q).r = 0 ∧ (encoded x q).1 ≠ 0 ∧ 0 < (with_ttls x q).ttl ∧
      ∃ (pre : List Call) (e : msgreply_entry), tr = pre ++ [Call.slabhash_insert q.query_hash e.entry (sorted x q)] ∧
        pre.filter Call.is_update = expected_updates (with_ttls x q) (time_now x) ∧
        pre.filter Call.is_insert = []) := by
  cases hm : q.env.modinfo with
  | none => simp [iter_operate, hm] at hrun
  | some tbl =>
    cases ev with
    | module_event_error =>
      rw [iter_operate_error_eq x h q id tbl hm] at hrun
      cases hrun
      simp
    | module_event_timeout =>
      rw [iter_operate_timeout_eq x h q id tbl hm] at hrun
      cases hrun
      simp
    | module_event_other code =>
      rw [iter_operate_other_eq x h q id code tbl hm] at hrun
      cases hrun
      simp
    | module_event_new =>
      simp only [iter_operate, hm] at hrun
      cases hd : deref_iter_env h (tbl id) with
      | error f => simp [hd] at hrun
      | ok o =>
        simp [hd] at hrun
        obtain ⟨_, rfl⟩ := hrun
        simp [Call.is_insert]
    | module_event_reply =>
      by_cases htc : truncated_udp x q
      · have htc2 := htc
        unfold truncated_udp at htc2
        simp only [iter_operate, hm] at hrun
        cases hd : deref_iter_env h (tbl id) with
        | error f => simp [hd, htc2] at hrun
        | ok o =>
          simp [hd, htc2] at hrun
          obtain ⟨_, rfl⟩ := hrun
          simp [Call.is_insert]
      · by_cases hparse : (decoded x q).r = 0
        · by_cases henc : (encoded x q).1 = 0
          · rw [iter_operate_reply_encode_fail x h q id tbl hm htc hparse henc] at hrun
            cases hrun
            simp [Call.is_insert]
          · by_cases httl : (with_ttls x q).ttl = 0
            · rw [iter_operate_ttl_zero_eq x h q id tbl hm htc hparse henc httl] at hrun
              cases hrun
              simp only [List.filter_append, filter_insert_expected]
              simp [Call.is_insert]
            · cases hentry : entry_built x q with
              | none =>
                rw [iter_operate_no_entry_eq x h q id tbl hm htc hparse henc httl hentry]
                  at hrun
                cases hrun
                simp only [List.filter_append, filter_insert_expected]
                simp [Call.is_insert]
              | some e =>
                rw [iter_operate_commit_eq x h q id tbl e hm htc hparse henc httl hentry]
                  at hrun
                cases hrun
                refine ⟨?_, fun _ => ⟨rfl, htc, hparse, henc, Nat.pos_of_ne_zero httl,
                  [Call.reply_info_parse q.reply.c.buffer,
                    Call.reply_info_answer_encode (decoded x q).qinfo (decoded x q).rep
                      q.query_flags q.edns.udp_size (reset_edns x q),
                    Call.reply_info_set_ttls (time_now x)] ++
                    expected_updates (with_ttls x q) (time_now x) ++
                    [Call.reply_info_sortref,
                     Call.query_info_entrysetup (decoded x q).qinfo q.query_hash],
                  e, ?_, ?_, ?_⟩⟩
                · simp only [List.filter_append, filter_insert_expected]
                  simp [Call.is_insert]
                · simp
                · simp only [List.filter_append, filter_update_expected]
                  simp [Call.is_update]
                · simp only [List.filter_append, filter_insert_expected]
                  simp [Call.is_insert]
        · rw [iter_operate_reply_parse_fail x h q id tbl hm htc hparse] at hrun
          cases hrun
          simp [Call.is_insert]

theorem msg_cache_commit_invariant_witness :
    ∃ q' tr, iter_operate (toy 1000) toy_heap (toy_qstate (toy_pkt 60) comm_point_type.comm_udp 77)
        module_ev.module_event_reply 0 = .ok (q', tr) ∧
      (tr.filter Call.is_insert).length ≤ 1 ∧
      (tr.filter Call.is_insert ≠ [] →
        module_ev.module_event_reply = module_ev.module_event_reply ∧
        ¬ truncated_udp (toy 1000) (toy_qstate (toy_pkt 60) comm_point_type.comm_udp 77) ∧
        (decoded (toy 1000) (toy_qstate (toy_pkt 60) comm_point_type.comm_udp 77)).r = 0 ∧
        (encoded (toy 1000) (toy_qstate (toy_pkt 60) comm_point_type.comm_udp 77)).1 ≠ 0 ∧
        0 < (with_ttls (toy 1000) (toy_qstate (toy_pkt 60) comm_point_type.comm_udp 77)).ttl ∧
        ∃ (pre : List Call) (e : msgreply_entry), tr = pre ++ [Call.slabhash_insert 77 e.entry
            (sorted (toy 1000) (toy_qstate (toy_pkt 60) comm_point_type.comm_udp 77))] ∧
          pre.filter Call.is_update =
            expected_updates (with_ttls (toy 1000)
              (toy_qstate (toy_pkt 60) comm_point_type.comm_udp 77)) (time_now (toy 1000)) ∧
          pre.filter Call.is_insert = []) :=
  ⟨_, _,
    iter_operate_commit_eq (toy 1000) toy_heap
      (toy_qstate (toy_pkt 60) comm_point_type.comm_udp 77) 0
      (fun i => if i = 0 then some 1 else none)
      { key := { qname := [3, 119, 119, 119, 0], qtype := 1, qclass := 1 },
        entry := { hash := 77 } }
      rfl (by decide) (by decide) (by decide) (by decide) rfl,
    msg_cache_commit_invariant (toy 1000) toy_heap
      (toy_qstate (toy_pkt 60) comm_point_type.comm_udp 77) module_ev.module_event_reply 0 _ _
      (iter_operate_commit_eq (toy 1000) toy_heap
        (toy_qstate (toy_pkt 60) comm_point_type.comm_udp 77) 0
        (fun i => if i = 0 then some 1 else none)
        { key := { qname := [3, 119, 119, 119, 0], qtype := 1, qclass := 1 },
          entry := { hash := 77 } }
        rfl (by decide) (by decide) (by decide) (by decide) rfl)⟩

/-! ## Forwarder address and module lifecycle -/

theorem iter_set_fwd_port (x : Externals) (ie : iter_env) (ip : String) (port : Int) :
    (iter_set_fwd x ie ip port).1.fwd_addr.port = htons (port % 65536).toNat := by
  simp only [iter_set_fwd]
  split <;> split <;> rfl

theorem ntohs_htons (n : Nat) (hn : n < 65536) : ntohs (htons n) = n := by
  have h0 : (htons n).getD 0 0 = n / 256 % 256 := rfl
  have h1 : (htons n).getD 1 0 = n % 256 := rfl
  rw [ntohs, h0, h1]
  omega

theorem iter_set_fwd_valid (x : Externals) (ie : iter_env) (ip : String) (port : Int)
    (hport : 0 ≤ port ∧ port < 65536)
    (hvalid : 0 < (x.inet_pton (if x.str_is_ip6 ip ≠ 0 then x.AF_INET6 else x.AF_INET) ip).1) :
    (iter_set_fwd x ie ip port).2 = 1 ∧
    (iter_set_fwd x ie ip port).1.fwd_addr.family =
      (if x.str_is_ip6 ip ≠ 0 then x.AF_INET6 else x.AF_INET) ∧
    (iter_set_fwd x ie ip port).1.fwd_addrlen =
      (if x.str_is_ip6 ip ≠ 0 then x.sizeof_sockaddr_in6 else x.sizeof_sockaddr_in) ∧
    (ntohs (iter_set_fwd x ie ip port).1.fwd_addr.port : Int) = port := by
  have hp : ((port % 65536).toNat : Int) = port := by
    rw [Int.toNat_of_nonneg (Int.emod_nonneg _ (by norm_num))]
    exact Int.emod_eq_of_lt hport.1 hport.2
  have hlt : (port % 65536).toNat < 65536 := by
    have := Int.emod_lt_of_pos port (show (0 : Int) < 65536 by norm_num)
    omega
  refine ⟨?_, ?_, ?_, ?_⟩
  · by_cases h6 : x.str_is_ip6 ip ≠ 0
    · rw [if_pos h6] at hvalid
      have hnle : ¬ (x.inet_pton x.AF_INET6 ip).1 ≤ 0 := by omega
      simp only [iter_set_fwd]
      rw [if_pos h6, if_neg hnle]
    · rw [if_neg h6] at hvalid
      have hnle : ¬ (x.inet_pton x.AF_INET ip).1 ≤ 0 := by omega
      simp only [iter_set_fwd]
      rw [if_neg h6, if_neg hnle]
  · simp only [iter_set_fwd]
    split <;> split <;> rfl
  · simp only [iter_set_fwd]
    split <;> split <;> rfl
  · rw [iter_set_fwd_port, ntohs_htons _ hlt, hp]

/-- C7 (the code departs from it): for the valid address `127.0.0.1` and port `0`,
`iter_set_fwd` succeeds with family `AF_INET` and the length of a `sockaddr_in`, but the port
field it stores denotes port 0, not the default 53 that its own parameter comment promises;
and for every address string the port stored for a given port 0 denotes 0. -/
theorem iter_set_fwd_port_zero_not_defaulted :
    iter_set_fwd (toy 0) iter_env.zero "127.0.0.1" 0 =
      ({ fwd_addr := { family := 2, port := [0, 0], addr := [127, 0, 0, 1] },
         fwd_addrlen := 16 }, 1) ∧
    ntohs (iter_set_fwd (toy 0) iter_env.zero "127.0.0.1" 0).1.fwd_addr.port ≠ 53 ∧
    ∀ (x : Externals) (ie : iter_env) (ip : String),
      ntohs (iter_set_fwd x ie ip 0).1.fwd_addr.port = 0 := by
  refine ⟨by decide, by decide, ?_⟩
  intro x ie ip
  rw [iter_set_fwd_port]
  rfl

/-- C8: when the configured forwarder address is a non-empty string that `inet_pton` rejects
for the family detected by `str_is_ip6` (result not positive), `iter_set_fwd` returns 0 for
every port and block, and `iter_init` returns 0. -/
theorem iter_init_rejects_bad_forwarder (x : Externals) (h : Heap) (env : module_env) (id : Nat)
    (tbl : Nat → Option Nat) (s : String)
    (htbl : env.modinfo = some tbl)
    (hcfg : env.cfg.fwd_address = some s) (hne : s ≠ "")
    (hbad : (x.inet_pton (if x.str_is_ip6 s ≠ 0 then x.AF_INET6 else x.AF_INET) s).1 ≤ 0) :
    (∀ (ie : iter_env) (port : Int), (iter_set_fwd x ie s port).2 = 0) ∧
    ∃ h' env', iter_init x h env id = .ok (h', env', 0) := by
  have hset : ∀ (ie : iter_env) (port : Int), (iter_set_fwd x ie s port).2 = 0 := by
    intro ie port
    by_cases h6 : x.str_is_ip6 s ≠ 0
    · rw [if_pos h6] at hbad
      simp only [iter_set_fwd]
      rw [if_pos h6, if_pos hbad]
    · rw [if_neg h6] at hbad
      simp only [iter_set_fwd]
      rw [if_neg h6, if_pos hbad]
  refine ⟨hset, ?_⟩
  cases hc : x.calloc h with
  | none => exact ⟨h, env, by simp [iter_init, hc]⟩
  | some p =>
    refine ⟨(h.store p iter_env.zero).store p
        (iter_set_fwd x iter_env.zero s env.cfg.fwd_port).1,
      { env with modinfo := some (Function.update tbl id (some p)) }, ?_⟩
    simp only [iter_init, hc, htbl, hcfg]
    rw [if_pos hne, if_pos (hset _ _)]

theorem iter_init_rejects_bad_forwarder_witness :
    ({ toy_env with cfg := { fwd_address := some "10.0.0.256", fwd_port := 53 } } :
      module_env).modinfo = some (fun i => if i = 0 then some 1 else none) ∧
    "10.0.0.256" ≠ "" ∧
    ((toy 0).inet_pton
      (if (toy 0).str_is_ip6 "10.0.0.256" ≠ 0 then (toy 0).AF_INET6 else (toy 0).AF_INET)
      "10.0.0.256").1 ≤ 0 ∧
    (∀ (ie : iter_env) (port : Int), (iter_set_fwd (toy 0) ie "10.0.0.256" port).2 = 0) ∧
    ∃ h' env', iter_init (toy 0) { blocks := [] }
      { toy_env with cfg := { fwd_address := some "10.0.0.256", fwd_port := 53 } } 0 =
        .ok (h', env', 0) :=
  ⟨rfl, by decide, by decide,
    iter_init_rejects_bad_forwarder (toy 0) { blocks := [] }
      { toy_env with cfg := { fwd_address := some "10.0.0.256", fwd_port := 53 } } 0
      (fun i => if i = 0 then some 1 else none) "10.0.0.256" rfl rfl (by decide) (by decide)⟩

theorem iter_deinit_absent (h : Heap) (env : module_env) (id : Nat)
    (tbl : Nat → Option Nat) (htbl : env.modinfo = some tbl) (hslot : tbl id = none) :
    iter_deinit h none id = .ok (h, []) ∧
    iter_deinit h (some { env with modinfo := none }) id = .ok (h, []) ∧
    iter_deinit h (some env) id = .ok (h, []) := by
  refine ⟨rfl, rfl, ?_⟩
  simp [iter_deinit, htbl, hslot]

theorem heap_release_deref (h : Heap) (p : Nat) : (h.release p).deref p = none := by
  simp only [Heap.deref, Heap.release, Option.map_eq_none', List.find?_eq_none]
  intro b hb
  simp only [List.mem_filter] at hb
  simpa using hb.2

/-- C9 (the code departs from it): `iter_deinit` does not clear the module slot.  On an
environment whose slot `id` points at a live block, the first call frees the block and the
second call, on the resulting heap and the same environment, passes the same pointer to
`free` again, which is a double free, where the claim has a no-op. -/
theorem iter_deinit_twice_double_free (h : Heap) (env : module_env) (id : Nat)
    (tbl : Nat → Option Nat) (p : Nat) (ie : iter_env)
    (htbl : env.modinfo = some tbl) (hslot : tbl id = some p) (hie : h.deref p = some ie) :
    iter_deinit h (some env) id = .ok (h.release p, [Call.free p]) ∧
    iter_deinit (h.release p) (some env) id = .error (Fault.double_free p) := by
  constructor
  · simp [iter_deinit, htbl, hslot, free, hie]
  · simp [iter_deinit, htbl, hslot, free, heap_release_deref]

theorem iter_deinit_twice_double_free_witness :
    toy_env.modinfo = some (fun i => if i = 0 then some 1 else none) ∧
    toy_heap.deref 1 = some toy_iter_env ∧
    iter_deinit toy_heap (some toy_env) 0 = .ok (toy_heap.release 1, [Call.free 1]) ∧
    iter_deinit (toy_heap.release 1) (some toy_env) 0 = .error (Fault.double_free 1) :=
  ⟨rfl, by decide,
    iter_deinit_twice_double_free toy_heap toy_env 0 (fun i => if i = 0 then some 1 else none)
      1 toy_iter_env rfl rfl (by decide)⟩

/-! ## One invocation, all paths at once -/

theorem filter_codec_expected (rep : reply_info) (now : Nat) :
    (expected_updates rep now).filter Call.is_codec = [] := by
  apply List.filter_eq_nil_iff.mpr
  intro c hc
  simp only [expected_updates, List.mem_map] at hc
  obtain ⟨i, _, rfl⟩ := hc
  simp [Call.is_codec]

theorem filter_tcp_send_expected (rep : reply_info) (now : Nat) :
    (expected_updates rep now).filter Call.is_tcp_send = [] := by
  apply List.filter_eq_nil_iff.mpr
  intro c hc
  simp only [expected_updates, List.mem_map] at hc
  obtain ⟨i, _, rfl⟩ := hc
  simp [Call.is_tcp_send]

theorem iter_operate_success_summary (x : Externals) (h : Heap) (q : module_qstate) (id : Nat)
    (tbl : Nat → Option Nat) (htbl : q.env.modinfo = some tbl)
    (hnot : ¬ truncated_udp x q) (hparse : (decoded x q).r = 0) (henc : (encoded x q).1 ≠ 0) :
    ∃ q' tr, iter_operate x h q module_ev.module_event_reply id = .ok (q', tr) ∧
      q'.env.modinfo = q.env.modinfo ∧
      q'.ext_state id = module_ext_state.module_finished ∧
      q'.edns = reset_edns x q ∧
      tr.filter Call.is_send = [] ∧
      tr.filter Call.is_tcp_send = [] ∧
      tr.filter Call.is_update = expected_updates (with_ttls x q) (time_now x) ∧
      (∃ rest, tr = Call.reply_info_parse q.reply.c.buffer ::
        Call.reply_info_answer_encode (decoded x q).qinfo (decoded x q).rep q.query_flags
          q.edns.udp_size (reset_edns x q) :: rest ∧ rest.filter Call.is_codec = []) := by
  by_cases httl : (with_ttls x q).ttl = 0
  · refine ⟨_, _, iter_operate_ttl_zero_eq x h q id tbl htbl hnot hparse henc httl, rfl, ?_,
      rfl, ?_, ?_, ?_,
      ⟨[Call.reply_info_set_ttls (time_now x)] ++
        expected_updates (with_ttls x q) (time_now x), rfl, ?_⟩⟩
    · simp
    · simp only [List.filter_append, filter_send_expected]
      simp [Call.is_send]
    · simp only [List.filter_append, filter_tcp_send_expected]
      simp [Call.is_tcp_send]
    · simp only [List.filter_append, filter_update_expected]
      simp [Call.is_update]
    · simp only [List.filter_append, List.filter_cons, filter_codec_expected, Call.is_codec]
      try simp
  · cases hentry : entry_built x q with
    | none =>
      refine ⟨_, _, iter_operate_no_entry_eq x h q id tbl htbl hnot hparse henc httl hentry,
        rfl, ?_, rfl, ?_, ?_, ?_,
        ⟨[Call.reply_info_set_ttls (time_now x)] ++
          expected_updates (with_ttls x q) (time_now x) ++
          [Call.reply_info_sortref,
           Call.query_info_entrysetup (decoded x q).qinfo q.query_hash], rfl, ?_⟩⟩
      · simp
      · simp only [List.filter_append, filter_send_expected]
        simp [Call.is_send]
      · simp only [List.filter_append, filter_tcp_send_expected]
        simp [Call.is_tcp_send]
      · simp only [List.filter_append, filter_update_expected]
        simp [Call.is_update]
      · simp only [List.filter_append, List.filter_cons, filter_codec_expected, Call.is_codec]
        try simp
    | some e =>
      refine ⟨_, _, iter_operate_commit_eq x h q id tbl e htbl hnot hparse henc httl hentry,
        rfl, ?_, rfl, ?_, ?_, ?_,
        ⟨[Call.reply_info_set_ttls (time_now x)] ++
          expected_updates (with_ttls x q) (time_now x) ++
          [Call.reply_info_sortref,
           Call.query_info_entrysetup (decoded x q).qinfo q.query_hash,
           Call.slabhash_insert q.query_hash e.entry (sorted x q)], rfl, ?_⟩⟩
      · simp
      · simp only [List.filter_append, filter_send_expected]
        simp [Call.is_send]
      · simp only [List.filter_append, filter_tcp_send_expected]
        simp [Call.is_tcp_send]
      · simp only [List.filter_append, filter_update_expected]
        simp [Call.is_update]
      · simp only [List.filter_append, List.filter_cons, filter_codec_expected, Call.is_codec]
        try simp

theorem iter_operate_summary (x : Externals) (h : Heap) (q : module_qstate) (ev : module_ev)
    (id : Nat) (tbl : Nat → Option Nat) (p : Nat) (ie : iter_env)
    (htbl : q.env.modinfo = some tbl) (hslot : tbl id = some p) (hie : h.deref p = some ie) :
    ∃ q' tr, iter_operate x h q ev id = .ok (q', tr) ∧
      q'.env.modinfo = q.env.modinfo ∧
      (ev = module_ev.module_event_new →
        tr = [Call.send_query q.buf ie.fwd_addr ie.fwd_addrlen x.UDP_QUERY_TIMEOUT 0] ∧
        q'.ext_state id = module_ext_state.module_wait_reply) ∧
      (ev = module_ev.module_event_reply ∧ truncated_udp x q →
        tr = [Call.qinfo_query_encode q.buf q.qinfo,
              Call.send_query (x.qinfo_query_encode q.buf q.qinfo) ie.fwd_addr ie.fwd_addrlen
                x.TCP_QUERY_TIMEOUT 1] ∧
        q'.ext_state = q.ext_state) ∧
      (failure_path x q ev →
        q'.ext_state id = module_ext_state.module_error ∧
        tr.filter Call.is_send = [] ∧ tr.filter Call.is_update = [] ∧
        tr.filter Call.is_insert = []) ∧
      (ev = module_ev.module_event_reply ∧ ¬ truncated_udp x q ∧ (decoded x q).r = 0 ∧
          (encoded x q).1 ≠ 0 →
        q'.ext_state id = module_ext_state.module_finished ∧ tr.filter Call.is_send = []) := by
  cases ev with
  | module_event_error =>
    refine ⟨_, _, iter_operate_error_eq x h q id tbl htbl, rfl, ?_, ?_, ?_, ?_⟩ <;>
      simp [failure_path]
  | module_event_timeout =>
    refine ⟨_, _, iter_operate_timeout_eq x h q id tbl htbl, rfl, ?_, ?_, ?_, ?_⟩ <;>
      simp [failure_path]
  | module_event_other code =>
    refine ⟨_, _, iter_operate_other_eq x h q id code tbl htbl, rfl, ?_, ?_, ?_, ?_⟩ <;>
      simp [failure_path]
  | module_event_new =>
    refine ⟨_, _, iter_operate_new_eq x h q id tbl p ie htbl hslot hie, rfl, ?_, ?_, ?_, ?_⟩ <;>
      simp [failure_path]
  | module_event_reply =>
    by_cases htc : truncated_udp x q
    · refine ⟨_, _, iter_operate_tc_eq x h q id tbl p ie htbl hslot hie htc, rfl, ?_, ?_, ?_,
        ?_⟩ <;> simp [failure_path, htc]
    · by_cases hparse : (decoded x q).r = 0
      · by_cases henc : (encoded x q).1 = 0
        · refine ⟨_, _, iter_operate_reply_encode_fail x h q id tbl htbl htc hparse henc, rfl,
            ?_, ?_, ?_, ?_⟩ <;>
            simp [failure_path, htc, hparse, henc, Call.is_send, Call.is_update,
              Call.is_insert]
        · obtain ⟨q', tr, hrun, hmod, hfin, _, hsend, _, _, _⟩ :=
            iter_operate_success_summary x h q id tbl htbl htc hparse henc
          refine ⟨q', tr, hrun, hmod, ?_, ?_, ?_, ?_⟩
          · simp
          · simp [htc]
          · simp [failure_path, htc, hparse, henc]
          · exact fun _ => ⟨hfin, hsend⟩
      · refine ⟨_, _, iter_operate_reply_parse_fail x h q id tbl htbl htc hparse, rfl,
          ?_, ?_, ?_, ?_⟩ <;>
          simp [failure_path, htc, hparse, Call.is_send, Call.is_update, Call.is_insert]

theorem path_cases (x : Externals) (q : module_qstate) (ev : module_ev) :
    ev = module_ev.module_event_new ∨
    (ev = module_ev.module_event_reply ∧ truncated_udp x q) ∨
    failure_path x q ev ∨
    (ev = module_ev.module_event_reply ∧ ¬ truncated_udp x q ∧ (decoded x q).r = 0 ∧
      (encoded x q).1 ≠ 0) := by
  cases ev with
  | module_event_error => simp [failure_path]
  | module_event_timeout => simp [failure_path]
  | module_event_other code => simp [failure_path]
  | module_event_new => simp
  | module_event_reply =>
    by_cases htc : truncated_udp x q
    · simp [htc]
    · by_cases hparse : (decoded x q).r = 0
      · by_cases henc : (encoded x q).1 = 0
        · simp [failure_path, htc, hparse, henc]
        · simp [failure_path, htc, hparse, henc]
      · simp [failure_path, htc, hparse]

/-! ## Sends and final states -/

/-- C11, as the code has it: one invocation of `iter_operate` makes at most one `send_query`;
when it makes one, the extended state afterwards is `module_wait_reply` (on `New`) or the
whole extended-state array is as on entry (truncated-over-UDP resend), so the state is
neither newly `module_finished` nor newly `module_error`; and on every branch that assigns
`module_error` or `module_finished` no send is made. -/
theorem iter_operate_send_or_finalize (x : Externals) (h : Heap) (q : module_qstate)
    (ev : module_ev) (id : Nat) (tbl : Nat → Option Nat) (p : Nat) (ie : iter_env)
    (htbl : q.env.modinfo = some tbl) (hslot : tbl id = some p) (hie : h.deref p = some ie) :
    ∃ q' tr, iter_operate x h q ev id = .ok (q', tr) ∧
      (tr.filter Call.is_send).length ≤ 1 ∧
      (tr.filter Call.is_send ≠ [] →
        (q'.ext_state id = module_ext_state.module_wait_reply ∨ q'.ext_state = q.ext_state) ∧
        ¬ (q'.ext_state id = module_ext_state.module_finished ∧
            q.ext_state id ≠ module_ext_state.module_finished) ∧
        ¬ (q'.ext_state id = module_ext_state.module_error ∧
            q.ext_state id ≠ module_ext_state.module_error)) ∧
      (failure_path x q ev →
        q'.ext_state id = module_ext_state.module_error ∧ tr.filter Call.is_send = []) ∧
      (ev = module_ev.module_event_reply ∧ ¬ truncated_udp x q ∧ (decoded x q).r = 0 ∧
          (encoded x q).1 ≠ 0 →
        q'.ext_state id = module_ext_state.module_finished ∧ tr.filter Call.is_send = []) ∧
      ((q'.ext_state id = module_ext_state.module_finished ∨
          q'.ext_state id = module_ext_state.module_error) ∧
          q'.ext_state id ≠ q.ext_state id →
        tr.filter Call.is_send = []) := by
  obtain ⟨q', tr, hrun, _, hnew, htc, hfail, hsucc⟩ :=
    iter_operate_summary x h q ev id tbl p ie htbl hslot hie
  refine ⟨q', tr, hrun, ?_, ?_, fun hf => ⟨(hfail hf).1, (hfail hf).2.1⟩, hsucc, ?_⟩
  · rcases path_cases x q ev with hc | hc | hc | hc
    · rw [(hnew hc).1]; simp [Call.is_send]
    · rw [(htc hc).1]; simp [Call.is_send]
    · rw [(hfail hc).2.1]; simp
    · rw [(hsucc hc).2]; simp
  · intro hs
    rcases path_cases x q ev with hc | hc | hc | hc
    · have hw := (hnew hc).2
      refine ⟨Or.inl hw, ?_, ?_⟩ <;> simp [hw]
    · have hu := (htc hc).2
      refine ⟨Or.inr hu, ?_, ?_⟩ <;> simp [hu]
    · exact absurd (hfail hc).2.1 hs
    · exact absurd (hsucc hc).2 hs
  · intro hset
    rcases path_cases x q ev with hc | hc | hc | hc
    · have hw := (hnew hc).2
      rw [hw] at hset
      simp at hset
    · have hu := (htc hc).2
      rw [hu] at hset
      simp at hset
    · exact (hfail hc).2.1
    · exact (hsucc hc).2

theorem iter_operate_send_or_finalize_witness :
    toy_env.modinfo = some (fun i => if i = 0 then some 1 else none) ∧
    toy_heap.deref 1 = some toy_iter_env ∧
    ∃ q' tr, iter_operate (toy 1000) toy_heap (toy_qstate toy_pkt_tc comm_point_type.comm_udp 77)
        module_ev.module_event_reply 0 = .ok (q', tr) ∧
      (tr.filter Call.is_send).length ≤ 1 ∧
      (tr.filter Call.is_send ≠ [] →
        (q'.ext_state 0 = module_ext_state.module_wait_reply ∨
          q'.ext_state = (toy_qstate toy_pkt_tc comm_point_type.comm_udp 77).ext_state) ∧
        ¬ (q'.ext_state 0 = module_ext_state.module_finished ∧
            (toy_qstate toy_pkt_tc comm_point_type.comm_udp 77).ext_state 0 ≠
              module_ext_state.module_finished) ∧
        ¬ (q'.ext_state 0 = module_ext_state.module_error ∧
            (toy_qstate toy_pkt_tc comm_point_type.comm_udp 77).ext_state 0 ≠
              module_ext_state.module_error)) :=
  ⟨rfl, by decide,
    match iter_operate_send_or_finalize (toy 1000) toy_heap
        (toy_qstate toy_pkt_tc comm_point_type.comm_udp 77) module_ev.module_event_reply 0
        (fun i => if i = 0 then some 1 else none) 1 toy_iter_env rfl rfl (by decide) with
    | ⟨q', tr, hrun, hle, hsend, _⟩ => ⟨q', tr, hrun, hle, hsend⟩⟩

/-- C11 as stated fails: on a query whose extended state is `module_finished`, a reply that is
truncated and arrived over UDP makes `iter_operate` issue one send (with the reliable flag)
and leave the extended state at `module_finished`. -/
theorem resend_keeps_finished_state :
    send_counts (iter_operate (toy 1000) toy_heap
      { toy_qstate toy_pkt_tc comm_point_type.comm_udp 77 with
          ext_state := fun _ => module_ext_state.module_finished }
      module_ev.module_event_reply 0) = some (1, 1) ∧
    final_state (iter_operate (toy 1000) toy_heap
      { toy_qstate toy_pkt_tc comm_point_type.comm_udp 77 with
          ext_state := fun _ => module_ext_state.module_finished }
      module_ev.module_event_reply 0) 0 = some module_ext_state.module_finished := by
  constructor <;> rfl

/-! ## Which collaborators a result depends on -/

theorem store_rrsets_loop_congr (x y : Externals) (alloc : alloc_cache) (now : Nat)
    (hupd : y.rrset_cache_update = x.rrset_cache_update) (k : Nat) :
    ∀ (i : Nat) (rep : reply_info) (rc : rrset_cache) (tr : List Call),
      store_rrsets_loop y alloc now k i rep rc tr = store_rrsets_loop x alloc now k i rep rc tr := by
  induction k with
  | zero => intro i rep rc tr; rfl
  | succ k ih =>
    intro i rep rc tr
    simp only [store_rrsets_loop, hupd, ih]

theorem store_msg_congr (x y : Externals) (q : module_qstate) (qi : query_info)
    (rep : reply_info) (htime : y.time = x.time)
    (httls : y.reply_info_set_ttls = x.reply_info_set_ttls)
    (hupd : y.rrset_cache_update = x.rrset_cache_update)
    (hsort : y.reply_info_sortref = x.reply_info_sortref)
    (hentry : y.query_info_entrysetup = x.query_info_entrysetup)
    (hins : y.slabhash_insert = x.slabhash_insert) :
    store_msg y q qi rep = store_msg x q qi rep := by
  simp only [store_msg, store_rrsets, store_rrsets_loop_congr x y _ _ hupd, htime, httls, hsort,
    hentry, hins]

theorem iter_operate_ignores_decoded_edns (x : Externals) (h : Heap) (q : module_qstate)
    (ev : module_ev) (id : Nat) (e : edns_data) :
    iter_operate
      { x with reply_info_parse := fun b a r => { x.reply_info_parse b a r with edns := e } }
      h q ev id =
    iter_operate x h q ev id := by
  have hs : ∀ (q1 : module_qstate) (qi : query_info) (rep : reply_info),
      store_msg
        { x with reply_info_parse := fun b a r => { x.reply_info_parse b a r with edns := e } }
        q1 qi rep = store_msg x q1 qi rep :=
    fun q1 qi rep => store_msg_congr x _ q1 qi rep rfl rfl rfl rfl rfl rfl
  simp only [iter_operate, hs]

/-- C12: after a `Reply` event that is not truncated-over-UDP and that decodes, whether or not
the answer encode then succeeds, the EDNS parameters of the query are the advertised version,
the advertised size, extended rcode 0 and the entry bits masked with `EDNS_DO`; the answer
encoder is called once, directly after the decode, with the query's `query_flags`, these
EDNS parameters and the `udp_size` the query had on entry; and the outcome of `iter_operate`
is the same whatever EDNS data the decoder hands back. -/
theorem iter_operate_resets_edns (x : Externals) (h : Heap) (q : module_qstate) (id : Nat)
    (tbl : Nat → Option Nat) (htbl : q.env.modinfo = some tbl)
    (hnot : ¬ truncated_udp x q)
    (hparse : (x.reply_info_parse q.reply.c.buffer q.env.alloc q.scratch).r = 0) :
    ∃ q' tr, iter_operate x h q module_ev.module_event_reply id = .ok (q', tr) ∧
      q'.edns = { edns_version := x.EDNS_ADVERTISED_VERSION,
                  udp_size := x.EDNS_ADVERTISED_SIZE,
                  ext_rcode := 0,
                  bits := q.edns.bits &&& x.EDNS_DO } ∧
      (∃ rest, tr = Call.reply_info_parse q.reply.c.buffer ::
          Call.reply_info_answer_encode (decoded x q).qinfo (decoded x q).rep q.query_flags
            q.edns.udp_size
            { edns_version := x.EDNS_ADVERTISED_VERSION,
              udp_size := x.EDNS_ADVERTISED_SIZE,
              ext_rcode := 0,
              bits := q.edns.bits &&& x.EDNS_DO } :: rest ∧
        rest.filter Call.is_codec = []) ∧
      (∀ e : edns_data,
        iter_operate
          { x with reply_info_parse := fun b a r => { x.reply_info_parse b a r with edns := e } }
          h q module_ev.module_event_reply id =
        iter_operate x h q module_ev.module_event_reply id) := by
  by_cases henc : (encoded x q).1 = 0
  · exact ⟨_, _, iter_operate_reply_encode_fail x h q id tbl htbl hnot hparse henc, rfl,
      ⟨[], rfl, rfl⟩, iter_operate_ignores_decoded_edns x h q _ id⟩
  · obtain ⟨q', tr, hrun, _, _, hedns, _, _, _, hcalls⟩ :=
      iter_operate_success_summary x h q id tbl htbl hnot hparse henc
    exact ⟨q', tr, hrun, hedns, hcalls, iter_operate_ignores_decoded_edns x h q _ id⟩

theorem iter_operate_resets_edns_witness :
    toy_env.modinfo = some (fun i => if i = 0 then some 1 else none) ∧
    ¬ truncated_udp (toy 1000) (toy_qstate (toy_pkt 60) comm_point_type.comm_udp 77) ∧
    ((toy 1000).reply_info_parse (toy_pkt 60) toy_env.alloc { handle := 0 }).r = 0 ∧
    ∃ q' tr, iter_operate (toy 1000) toy_heap (toy_qstate (toy_pkt 60) comm_point_type.comm_udp 77)
        module_ev.module_event_reply 0 = .ok (q', tr) ∧
      q'.edns = { edns_version := 0, udp_size := 4096, ext_rcode := 0,
                  bits := 32768 &&& 32768 } :=
  ⟨rfl, by decide, by decide,
    match iter_operate_resets_edns (toy 1000) toy_heap
        (toy_qstate (toy_pkt 60) comm_point_type.comm_udp 77) 0
        (fun i => if i = 0 then some 1 else none) rfl (by decide) (by decide) with
    | ⟨q', tr, hrun, hedns, _, _⟩ => ⟨q', tr, hrun, hedns⟩⟩

/-- C13: a `Reply` event that is not truncated-over-UDP, that decodes and encodes, whose message
TTL is positive, but for which `query_info_entrysetup` returns no entry: `slabhash_insert` is
not called, the message cache is as on entry, and the extended state is `module_finished`,
not `module_error`. -/
theorem iter_operate_entry_failure_not_fatal (x : Externals) (h : Heap) (q : module_qstate)
    (id : Nat) (tbl : Nat → Option Nat) (htbl : q.env.modinfo = some tbl)
    (hnot : ¬ truncated_udp x q)
    (hparse : (decoded x q).r = 0) (henc : (encoded x q).1 ≠ 0)
    (httl : 0 < (with_ttls x q).ttl) (hentry : entry_built x q = none) :
    ∃ q' tr, iter_operate x h q module_ev.module_event_reply id = .ok (q', tr) ∧
      tr.filter Call.is_insert = [] ∧
      q'.env.msg_cache = q.env.msg_cache ∧
      q'.ext_state id = module_ext_state.module_finished ∧
      q'.ext_state id ≠ module_ext_state.module_error ∧
      tr.filter Call.is_entrysetup =
        [Call.query_info_entrysetup (decoded x q).qinfo q.query_hash] := by
  refine ⟨_, _, iter_operate_no_entry_eq x h q id tbl htbl hnot hparse henc
    (Nat.pos_iff_ne_zero.mp httl) hentry, ?_, rfl, ?_, ?_, ?_⟩
  · simp only [List.filter_append, filter_insert_expected]
    simp [Call.is_insert]
  · simp
  · simp
  · simp only [List.filter_append, filter_entrysetup_expected]
    simp [Call.is_entrysetup]

theorem iter_operate_entry_failure_not_fatal_witness :
    toy_env.modinfo = some (fun i => if i = 0 then some 1 else none) ∧
    ¬ truncated_udp (toy 1000) (toy_qstate (toy_pkt 60) comm_point_type.comm_udp 0) ∧
    (decoded (toy 1000) (toy_qstate (toy_pkt 60) comm_point_type.comm_udp 0)).r = 0 ∧
    (encoded (toy 1000) (toy_qstate (toy_pkt 60) comm_point_type.comm_udp 0)).1 ≠ 0 ∧
    0 < (with_ttls (toy 1000) (toy_qstate (toy_pkt 60) comm_point_type.comm_udp 0)).ttl ∧
    entry_built (toy 1000) (toy_qstate (toy_pkt 60) comm_point_type.comm_udp 0) = none ∧
    ∃ q' tr, iter_operate (toy 1000) toy_heap (toy_qstate (toy_pkt 60) comm_point_type.comm_udp 0)
        module_ev.module_event_reply 0 = .ok (q', tr) ∧
      tr.filter Call.is_insert = [] ∧
      q'.env.msg_cache = toy_env.msg_cache ∧
      q'.ext_state 0 = module_ext_state.module_finished ∧
      q'.ext_state 0 ≠ module_ext_state.module_error ∧
      tr.filter Call.is_entrysetup =
        [Call.query_info_entrysetup
          (decoded (toy 1000) (toy_qstate (toy_pkt 60) comm_point_type.comm_udp 0)).qinfo 0] :=
  ⟨rfl, by decide, by decide, by decide, by decide, rfl,
    iter_operate_entry_failure_not_fatal (toy 1000) toy_heap
      (toy_qstate (toy_pkt 60) comm_point_type.comm_udp 0) 0
      (fun i => if i = 0 then some 1 else none) rfl (by decide) (by decide) (by decide)
      (by decide) rfl⟩

/-- C15: with the module initialised, `iter_operate` returns, and, leaving aside a
truncated-over-UDP reply delivered to a query whose state is already `module_error` (that
path does not write the state), the extended state afterwards is `module_error` exactly when
the invocation took a failure path: the external error event, a timeout, an event that is
none of the four, or a reply not truncated-over-UDP whose decode or answer encode fails.  On
every failure path there is no send, no `rrset_cache_update` and no `slabhash_insert`. -/
theorem iter_operate_error_iff_failure (x : Externals) (h : Heap) (q : module_qstate)
    (ev : module_ev) (id : Nat) (tbl : Nat → Option Nat) (p : Nat) (ie : iter_env)
    (htbl : q.env.modinfo = some tbl) (hslot : tbl id = some p) (hie : h.deref p = some ie) :
    ∃ q' tr, iter_operate x h q ev id = .ok (q', tr) ∧
      (¬ (ev = module_ev.module_event_reply ∧ truncated_udp x q ∧
            q.ext_state id = module_ext_state.module_error) →
        (q'.ext_state id = module_ext_state.module_error ↔ failure_path x q ev)) ∧
      (failure_path x q ev →
        tr.filter Call.is_send = [] ∧ tr.filter Call.is_update = [] ∧
        tr.filter Call.is_insert = []) := by
  obtain ⟨q', tr, hrun, _, hnew, htc, hfail, hsucc⟩ :=
    iter_operate_summary x h q ev id tbl p ie htbl hslot hie
  refine ⟨q', tr, hrun, ?_, fun hf => (hfail hf).2⟩
  intro hex
  constructor
  · intro herr
    rcases path_cases x q ev with hc | hc | hc | hc
    · rw [(hnew hc).2] at herr
      simp at herr
    · rw [(htc hc).2] at herr
      exact absurd ⟨hc.1, hc.2, herr⟩ hex
    · exact hc
    · rw [(hsucc hc).1] at herr
      simp at herr
  · exact fun hf => (hfail hf).1

theorem iter_operate_error_iff_failure_witness :
    toy_env.modinfo = some (fun i => if i = 0 then some 1 else none) ∧
    toy_heap.deref 1 = some toy_iter_env ∧
    ∃ q' tr, iter_operate (toy 1000) toy_heap (toy_qstate [0, 1] comm_point_type.comm_udp 77)
        module_ev.module_event_reply 0 = .ok (q', tr) ∧
      (¬ (module_ev.module_event_reply = module_ev.module_event_reply ∧
            truncated_udp (toy 1000) (toy_qstate [0, 1] comm_point_type.comm_udp 77) ∧
            (toy_qstate [0, 1] comm_point_type.comm_udp 77).ext_state 0 =
              module_ext_state.module_error) →
        (q'.ext_state 0 = module_ext_state.module_error ↔
          failure_path (toy 1000) (toy_qstate [0, 1] comm_point_type.comm_udp 77)
            module_ev.module_event_reply)) ∧
      (failure_path (toy 1000) (toy_qstate [0, 1] comm_point_type.comm_udp 77)
          module_ev.module_event_reply →
        tr.filter Call.is_send = [] ∧ tr.filter Call.is_update = [] ∧
        tr.filter Call.is_insert = []) :=
  ⟨rfl, by decide,
    iter_operate_error_iff_failure (toy 1000) toy_heap
      (toy_qstate [0, 1] comm_point_type.comm_udp 77) module_ev.module_event_reply 0
      (fun i => if i = 0 then some 1 else none) 1 toy_iter_env rfl rfl (by decide)⟩

/-! ## Per-query cleanup -/

/-- C16: `iter_clear` makes no call; on a null query state it returns it as it is; otherwise
it empties the private slot `minfo[id]` and leaves the other slots of `minfo`, the extended
states, the buffer, the EDNS parameters, the query hash and flags, the reply and the
environment as they were; applying it a second time changes nothing more. -/
theorem iter_clear_resets_slot (q : module_qstate) (id : Nat) :
    iter_clear none id = (none, []) ∧
    iter_clear (some q) id = (some { q with minfo := Function.update q.minfo id none }, []) ∧
    (∃ q', iter_clear (some q) id = (some q', []) ∧
      q'.minfo id = none ∧
      (∀ j, j ≠ id → q'.minfo j = q.minfo j) ∧
      q'.ext_state = q.ext_state ∧ q'.buf = q.buf ∧ q'.edns = q.edns ∧
      q'.query_hash = q.query_hash ∧ q'.query_flags = q.query_flags ∧ q'.qinfo = q.qinfo ∧
      q'.reply = q.reply ∧ q'.scratch = q.scratch ∧ q'.env = q.env) ∧
    iter_clear (iter_clear (some q) id).1 id = iter_clear (some q) id ∧
    iter_clear (iter_clear none id).1 id = iter_clear none id := by
  refine ⟨rfl, rfl, ⟨_, rfl, ?_, ?_, rfl, rfl, rfl, rfl, rfl, rfl, rfl, rfl, rfl⟩, ?_, rfl⟩
  · simp
  · intro j hj
    simp [Function.update, hj]
  · simp [iter_clear]

/-! ## Replies over a reliable transport -/

theorem store_rrsets_loop_below (x : Externals) (alloc : alloc_cache) (now : Nat) (k : Nat) :
    ∀ (i : Nat) (rep : reply_info) (rc : rrset_cache) (tr : List Call) (j : Nat), j < i →
      (store_rrsets_loop x alloc now k i rep rc tr).1.ref j = rep.ref j ∧
      (store_rrsets_loop x alloc now k i rep rc tr).1.rrsets j = rep.rrsets j := by
  induction k with
  | zero => intro i rep rc tr j _; exact ⟨rfl, rfl⟩
  | succ k ih =>
    intro i rep rc tr j hj
    have hji : j ≠ i := Nat.ne_of_lt hj
    simp only [store_rrsets_loop]
    obtain ⟨h1, h2⟩ := ih (i + 1) _ _ _ j (Nat.lt_succ_of_lt hj)
    rw [h1, h2]
    constructor <;> split <;> simp [Function.update, hji]

theorem store_rrsets_loop_at (x : Externals) (alloc : alloc_cache) (now : Nat)
    (rep0 : reply_info) (rc0 : rrset_cache) (k : Nat) :
    ∀ (i : Nat) (rep : reply_info) (tr : List Call),
      (∀ j, i ≤ j → rep.rrsets j = rep0.rrsets j) →
      (store_rrsets_loop x alloc now k i rep (rrset_cache_at x alloc now rep0 rc0 i) tr).2.1 =
        rrset_cache_at x alloc now rep0 rc0 (i + k) ∧
      ∀ j, i ≤ j → j < i + k →
        (store_rrsets_loop x alloc now k i rep (rrset_cache_at x alloc now rep0 rc0 i) tr).1.ref j
          = (update_at x alloc now rep0 rc0 j).2.1 ∧
        (store_rrsets_loop x alloc now k i rep (rrset_cache_at x alloc now rep0 rc0 i)
            tr).1.rrsets j =
          if (update_at x alloc now rep0 rc0 j).1 ≠ 0
          then (update_at x alloc now rep0 rc0 j).2.1.key else rep0.rrsets j := by
  induction k with
  | zero =>
    intro i rep tr _
    refine ⟨rfl, ?_⟩
    intro j h1 h2
    omega
  | succ k ih =>
    intro i rep tr hrep
    have hi : rep.rrsets i = rep0.rrsets i := hrep i (Nat.le_refl i)
    simp only [store_rrsets_loop, hi]
    have hcache : (x.rrset_cache_update (rrset_cache_at x alloc now rep0 rc0 i)
        { key := rep0.rrsets i, id := (rep0.rrsets i).id } alloc now).2.2 =
        rrset_cache_at x alloc now rep0 rc0 (i + 1) := rfl
    have hupd : x.rrset_cache_update (rrset_cache_at x alloc now rep0 rc0 i)
        { key := rep0.rrsets i, id := (rep0.rrsets i).id } alloc now =
        update_at x alloc now rep0 rc0 i := rfl
    rw [hcache, hupd]
    have hrep2 : ∀ j, i + 1 ≤ j →
        (if (update_at x alloc now rep0 rc0 i).1 ≠ 0 then
          ({ rep with
              ref := Function.update rep.ref i (update_at x alloc now rep0 rc0 i).2.1,
              rrsets := Function.update rep.rrsets i
                (Function.update rep.ref i (update_at x alloc now rep0 rc0 i).2.1 i).key } :
            reply_info)
        else
          { rep with
              ref := Function.update rep.ref i (update_at x alloc now rep0 rc0 i).2.1 }).rrsets j
          = rep0.rrsets j := by
      intro j hj
      have hji : j ≠ i := by omega
      rw [← hrep j (by omega)]
      split <;> simp [Function.update, hji]
    obtain ⟨ihc, ihj⟩ := ih (i + 1) _ (tr ++ [Call.rrset_cache_update i
      { key := rep0.rrsets i, id := (rep0.rrsets i).id } now]) hrep2
    refine ⟨by rw [ihc, Nat.add_assoc, Nat.add_comm 1 k], ?_⟩
    intro j h1 h2
    by_cases hj : j = i
    · subst hj
      obtain ⟨b1, b2⟩ := store_rrsets_loop_below x alloc now k (j + 1) _
        (rrset_cache_at x alloc now rep0 rc0 (j + 1))
        (tr ++ [Call.rrset_cache_update j
          { key := rep0.rrsets j, id := (rep0.rrsets j).id } now]) j (Nat.lt_succ_self j)
      rw [b1, b2]
      constructor
      · split <;> simp [Function.update]
      · split <;> simp [Function.update, hi]
    · exact ihj j (by omega) (by omega)

/-- C18: for every index `i` below `rrset_count`, `store_rrsets` calls `rrset_cache_update`
on a reference whose key is rrset `i` of the reply and whose id is the id of that rrset
(the calls it makes are exactly these, in index order); afterwards `ref[i]` is the reference
as the cache returned it, and rrset `i` is the key of that reference when the update reported
the rrset as cached and is as it was otherwise.  So, if an update that returns 0 leaves the
key of its reference untouched, `rrsets[i] = ref[i].key` afterwards; `rrset_count` is
unchanged. -/
theorem store_rrsets_rebinds (x : Externals) (env : module_env) (rep : reply_info) (now : Nat)
    (i : Nat) (hi : i < rep.rrset_count) :
    (store_rrsets x env rep now).2.2 =
      (List.range rep.rrset_count).map
        (fun j => Call.rrset_cache_update j
          { key := rep.rrsets j, id := (rep.rrsets j).id } now) ∧
    (store_rrsets x env rep now).1.ref i =
      (update_at x env.alloc now rep env.rrset_cache i).2.1 ∧
    (store_rrsets x env rep now).1.rrsets i =
      (if (update_at x env.alloc now rep env.rrset_cache i).1 ≠ 0
       then (update_at x env.alloc now rep env.rrset_cache i).2.1.key else rep.rrsets i) ∧
    ((∀ (rc : rrset_cache) (ref : rrset_ref),
        (x.rrset_cache_update rc ref env.alloc now).1 = 0 →
        (x.rrset_cache_update rc ref env.alloc now).2.1.key = ref.key) →
      (store_rrsets x env rep now).1.rrsets i = ((store_rrsets x env rep now).1.ref i).key) ∧
    (store_rrsets x env rep now).1.rrset_count = rep.rrset_count := by
  obtain ⟨_, hat⟩ := store_rrsets_loop_at x env.alloc now rep env.rrset_cache rep.rrset_count 0
    rep [] (fun _ _ => rfl)
  obtain ⟨href, hrr⟩ := hat i (Nat.zero_le i) (by omega)
  refine ⟨store_rrsets_trace x env rep now, href, hrr, ?_,
    (store_rrsets_loop_frame x env.alloc now rep.rrset_count 0 rep env.rrset_cache []).2.1⟩
  intro hkeep
  have href2 : (store_rrsets x env rep now).1.ref i =
      (update_at x env.alloc now rep env.rrset_cache i).2.1 := href
  have hrr2 : (store_rrsets x env rep now).1.rrsets i =
      (if (update_at x env.alloc now rep env.rrset_cache i).1 ≠ 0
       then (update_at x env.alloc now rep env.rrset_cache i).2.1.key else rep.rrsets i) := hrr
  rw [href2, hrr2]
  by_cases hz : (update_at x env.alloc now rep env.rrset_cache i).1 = 0
  · rw [if_neg (not_not.mpr hz)]
    exact (hkeep _ _ hz).symm
  · rw [if_pos hz]

theorem store_rrsets_rebinds_witness :
    1 < (toy_parse (toy_pkt 60)).rep.rrset_count ∧
    (store_rrsets (toy 1000) toy_env (toy_parse (toy_pkt 60)).rep 1000).1.ref 1 =
      (update_at (toy 1000) toy_env.alloc 1000 (toy_parse (toy_pkt 60)).rep
        toy_env.rrset_cache 1).2.1 ∧
    (store_rrsets (toy 1000) toy_env (toy_parse (toy_pkt 60)).rep 1000).1.rrset_count =
      (toy_parse (toy_pkt 60)).rep.rrset_count :=
  ⟨by decide,
    (store_rrsets_rebinds (toy 1000) toy_env (toy_parse (toy_pkt 60)).rep 1000 1
      (by decide)).2.1,
    (store_rrsets_rebinds (toy 1000) toy_env (toy_parse (toy_pkt 60)).rep 1000 1
      (by decide)).2.2.2.2⟩

/-! ## No forwarder configured -/

theorem heap_store_deref (h : Heap) (p : Nat) (v : iter_env) : (h.store p v).deref p = some v := by
  simp [Heap.deref, Heap.store]

/-- C19, as the code has it: when no forwarder is configured (address absent or the empty
string) and the allocation of the module block succeeds, `iter_init` returns 1, the slot
points at the block, and the block is all zero: zero forwarder address, address length 0.
A `New` event for a query of that environment then makes exactly one `send_query` with flag
0, to the all-zero address with length 0, and the state becomes `module_wait_reply`. -/
theorem iter_init_without_forwarder (x : Externals) (h : Heap) (env : module_env) (id : Nat)
    (tbl : Nat → Option Nat) (p : Nat)
    (htbl : env.modinfo = some tbl)
    (hcfg : env.cfg.fwd_address = none ∨ env.cfg.fwd_address = some "")
    (halloc : x.calloc h = some p) :
    ∃ h' env', iter_init x h env id = .ok (h', env', 1) ∧
      env'.modinfo = some (Function.update tbl id (some p)) ∧
      h'.deref p = some { fwd_addr := sockaddr_storage.zero, fwd_addrlen := 0 } ∧
      ∀ q : module_qstate, q.env = env' →
        ∃ q', iter_operate x h' q module_ev.module_event_new id =
            .ok (q', [Call.send_query q.buf sockaddr_storage.zero 0 x.UDP_QUERY_TIMEOUT 0]) ∧
          q'.ext_state id = module_ext_state.module_wait_reply := by
  refine ⟨h.store p iter_env.zero,
    { env with modinfo := some (Function.update tbl id (some p)) }, ?_, rfl,
    heap_store_deref h p iter_env.zero, ?_⟩
  · rcases hcfg with hc | hc
    · simp only [iter_init, halloc, htbl, hc]
    · simp only [iter_init, halloc, htbl, hc]
      simp
  · intro q hq
    refine ⟨_, iter_operate_new_eq x (h.store p iter_env.zero) q id
      (Function.update tbl id (some p)) p iter_env.zero (by rw [hq]) (by simp)
      (heap_store_deref h p iter_env.zero), ?_⟩
    simp

theorem iter_init_without_forwarder_witness :
    toy_env_no_fwd.modinfo = some (fun _ => none) ∧
    (toy_env_no_fwd.cfg.fwd_address = none ∨ toy_env_no_fwd.cfg.fwd_address = some "") ∧
    (toy 0).calloc { blocks := [] } = some 1 ∧
    ∃ h' env', iter_init (toy 0) { blocks := [] } toy_env_no_fwd 0 = .ok (h', env', 1) ∧
      env'.modinfo = some (Function.update (fun _ => none) 0 (some 1)) ∧
      h'.deref 1 = some { fwd_addr := sockaddr_storage.zero, fwd_addrlen := 0 } ∧
      ∀ q : module_qstate, q.env = env' →
        ∃ q', iter_operate (toy 0) h' q module_ev.module_event_new 0 =
            .ok (q', [Call.send_query q.buf sockaddr_storage.zero 0 (toy 0).UDP_QUERY_TIMEOUT 0]) ∧
          q'.ext_state 0 = module_ext_state.module_wait_reply :=
  ⟨rfl, Or.inl rfl, rfl,
    iter_init_without_forwarder (toy 0) { blocks := [] } toy_env_no_fwd 0 (fun _ => none) 1
      rfl (Or.inl rfl) rfl⟩

/-- C19 as stated fails: with no forwarder configured, `iter_init` returns 0 when the
allocation of the module block fails. -/
theorem iter_init_fails_without_memory :
    toy_env_no_fwd.cfg.fwd_address = none ∧
    iter_init (toy_no_memory 0) { blocks := [] } toy_env_no_fwd 0 =
      .ok ({ blocks := [] }, toy_env_no_fwd, 0) := by
  constructor <;> rfl

/-! ## The entry state is not consulted -/

/-- C20: with the module initialised, replacing the extended state `ext_state[id]` of the query
by any other value `s` changes nothing in what `iter_operate` does: the calls are the same,
and the query state afterwards is the same, except after a truncated-over-UDP reply, where
the extended state is not written and the run started from `s` ends with `s` in the slot.
In particular a `New` event makes one send and ends in `module_wait_reply` whatever the state
on entry, also from `module_finished` or `module_error`. -/
theorem iter_operate_ignores_ext_state (x : Externals) (h : Heap) (q : module_qstate)
    (ev : module_ev) (id : Nat) (s : module_ext_state)
    (tbl : Nat → Option Nat) (p : Nat) (ie : iter_env)
    (htbl : q.env.modinfo = some tbl) (hslot : tbl id = some p) (hie : h.deref p = some ie) :
    ∃ q' tr, iter_operate x h q ev id = .ok (q', tr) ∧
      iter_operate x h { q with ext_state := Function.update q.ext_state id s } ev id =
        .ok (if ev = module_ev.module_event_reply ∧ truncated_udp x q
             then { q' with ext_state := Function.update q'.ext_state id s } else q', tr) ∧
      (ev = module_ev.module_event_new →
        (tr.filter Call.is_send).length = 1 ∧
        q'.ext_state id = module_ext_state.module_wait_reply) := by
  cases ev with
  | module_event_error =>
    refine ⟨_, _, iter_operate_error_eq x h q id tbl htbl, ?_, ?_⟩
    · rw [iter_operate_error_eq x h
                { q with ext_state := Function.update q.ext_state id s } id tbl htbl]
      simp
    · simp
  | module_event_timeout =>
    refine ⟨_, _, iter_operate_timeout_eq x h q id tbl htbl, ?_, ?_⟩
    · rw [iter_operate_timeout_eq x h
                { q with ext_state := Function.update q.ext_state id s } id tbl htbl]
      simp
    · simp
  | module_event_other code =>
    refine ⟨_, _, iter_operate_other_eq x h q id code tbl htbl, ?_, ?_⟩
    · rw [iter_operate_other_eq x h
                { q with ext_state := Function.update q.ext_state id s } id code tbl htbl]
      simp
    · simp
  | module_event_new =>
    refine ⟨_, _, iter_operate_new_eq x h q id tbl p ie htbl hslot hie, ?_, ?_⟩
    · rw [iter_operate_new_eq x h
                { q with ext_state := Function.update q.ext_state id s } id tbl p ie htbl hslot hie]
      simp
    · simp [Call.is_send]
  | module_event_reply =>
    by_cases htc : truncated_udp x q
    · refine ⟨_, _, iter_operate_tc_eq x h q id tbl p ie htbl hslot hie htc, ?_, ?_⟩
      · rw [iter_operate_tc_eq x h
                { q with ext_state := Function.update q.ext_state id s } id tbl p ie htbl hslot hie htc]
        simp [htc]
      · simp
    · by_cases hparse : (decoded x q).r = 0
      · by_cases henc : (encoded x q).1 = 0
        · refine ⟨_, _, iter_operate_reply_encode_fail x h q id tbl htbl htc hparse henc,
            ?_, ?_⟩
          · rw [iter_operate_reply_encode_fail x h
                { q with ext_state := Function.update q.ext_state id s } id tbl htbl htc hparse henc]
            simp [htc]
            split_ands <;> rfl
          · simp
        · by_cases httl : (with_ttls x q).ttl = 0
          · refine ⟨_, _, iter_operate_ttl_zero_eq x h q id tbl htbl htc hparse henc httl,
              ?_, ?_⟩
            · rw [iter_operate_ttl_zero_eq x h
                { q with ext_state := Function.update q.ext_state id s } id tbl htbl htc hparse henc httl]
              simp [htc]
              split_ands <;> rfl
            · simp
          · cases hentry : entry_built x q with
            | none =>
              refine ⟨_, _,
                iter_operate_no_entry_eq x h q id tbl htbl htc hparse henc httl hentry, ?_, ?_⟩
              · rw [iter_operate_no_entry_eq x h
                { q with ext_state := Function.update q.ext_state id s } id tbl htbl htc hparse henc httl hentry]
                simp [htc]
                split_ands <;> rfl
              · simp
            | some e =>
              refine ⟨_, _,
                iter_operate_commit_eq x h q id tbl e htbl htc hparse henc httl hentry, ?_, ?_⟩
              · rw [iter_operate_commit_eq x h
                { q with ext_state := Function.update q.ext_state id s } id tbl e htbl htc hparse henc httl hentry]
                simp [htc]
                split_ands <;> rfl
              · simp
      · refine ⟨_, _, iter_operate_reply_parse_fail x h q id tbl htbl htc hparse, ?_, ?_⟩
        · rw [iter_operate_reply_parse_fail x h
                { q with ext_state := Function.update q.ext_state id s } id tbl htbl htc hparse]
          simp [htc]
        · simp

theorem iter_operate_ignores_ext_state_witness :
    toy_env.modinfo = some (fun i => if i = 0 then some 1 else none) ∧
    toy_heap.deref 1 = some toy_iter_env ∧
    ∃ q' tr, iter_operate (toy 1000) toy_heap (toy_qstate [] comm_point_type.comm_udp 77)
        module_ev.module_event_new 0 = .ok (q', tr) ∧
      iter_operate (toy 1000) toy_heap
        { toy_qstate [] comm_point_type.comm_udp 77 with
            ext_state := Function.update (toy_qstate [] comm_point_type.comm_udp 77).ext_state 0
              module_ext_state.module_finished }
        module_ev.module_event_new 0 =
        .ok (if module_ev.module_event_new = module_ev.module_event_reply ∧
                truncated_udp (toy 1000) (toy_qstate [] comm_point_type.comm_udp 77)
             then { q' with ext_state :=
                      Function.update q'.ext_state 0 module_ext_state.module_finished }
             else q', tr) ∧
      (module_ev.module_event_new = module_ev.module_event_new →
        (tr.filter Call.is_send).length = 1 ∧
        q'.ext_state 0 = module_ext_state.module_wait_reply) :=
  ⟨rfl, by decide,
    iter_operate_ignores_ext_state (toy 1000) toy_heap
      (toy_qstate [] comm_point_type.comm_udp 77) module_ev.module_event_new 0
      module_ext_state.module_finished (fun i => if i = 0 then some 1 else none) 1
      toy_iter_env rfl rfl (by decide)⟩

/-! ## Sends over a sequence of events -/

theorem filter_tcp_send_nil (tr : List Call) (hs : tr.filter Call.is_send = []) :
    tr.filter Call.is_tcp_send = [] := by
  rw [List.filter_eq_nil_iff] at hs ⊢
  intro c hc htcp
  apply hs c hc
  cases c <;> simp_all [Call.is_send, Call.is_tcp_send]

theorem is_upgrade_iff (x : Externals) (q : module_qstate) (item : module_ev × comm_reply) :
    is_upgrade x item = true ↔
      (item.1 = module_ev.module_event_reply ∧ truncated_udp x { q with reply := item.2 }) := by
  simp [is_upgrade, truncated_udp, and_assoc]

theorem iter_operate_send_counts (x : Externals) (h : Heap) (q : module_qstate)
    (item : module_ev × comm_reply) (id : Nat) (tbl : Nat → Option Nat) (p : Nat) (ie : iter_env)
    (htbl : q.env.modinfo = some tbl) (hslot : tbl id = some p) (hie : h.deref p = some ie) :
    ∃ q' tr, iter_operate x h { q with reply := item.2 } item.1 id = .ok (q', tr) ∧
      q'.env.modinfo = some tbl ∧
      (tr.filter Call.is_send).length =
        (if is_new item then 1 else 0) + (if is_upgrade x item then 1 else 0) ∧
      (tr.filter Call.is_tcp_send).length = (if is_upgrade x item then 1 else 0) := by
  obtain ⟨q', tr, hrun, hmod, hnew, htc, hfail, hsucc⟩ :=
    iter_operate_summary x h { q with reply := item.2 } item.1 id tbl p ie htbl hslot hie
  refine ⟨q', tr, hrun, hmod.trans htbl, ?_⟩
  rcases path_cases x { q with reply := item.2 } item.1 with hc | hc | hc | hc
  · have hn : is_new item = true := by simp [is_new, hc]
    have hu : is_upgrade x item = false := by simp [is_upgrade, hc]
    rw [(hnew hc).1, hn, hu]
    simp [Call.is_send, Call.is_tcp_send]
  · have hn : is_new item = false := by simp [is_new, hc.1]
    have hu : is_upgrade x item = true := (is_upgrade_iff x q item).mpr hc
    rw [(htc hc).1, hn, hu]
    simp [Call.is_send, Call.is_tcp_send]
  · have hn : is_new item = false := by
      cases hev : item.1 <;> simp [is_new, hev]
      simp [hev, failure_path] at hc
    have hu : is_upgrade x item = false := by
      rw [Bool.eq_false_iff]
      intro hup
      have hup2 := (is_upgrade_iff x q item).mp hup
      rw [hup2.1] at hc
      exact hc.1 hup2.2
    rw [(hfail hc).2.1, filter_tcp_send_nil tr (hfail hc).2.1, hn, hu]
    simp
  · have hn : is_new item = false := by simp [is_new, hc.1]
    have hu : is_upgrade x item = false := by
      rw [Bool.eq_false_iff]
      intro hup
      exact hc.2.1 ((is_upgrade_iff x q item).mp hup).2
    rw [(hsucc hc).2, filter_tcp_send_nil tr (hsucc hc).2, hn, hu]
    simp

theorem run_events_send_counts (x : Externals) (h : Heap) (id : Nat) (tbl : Nat → Option Nat)
    (p : Nat) (ie : iter_env) (hslot : tbl id = some p) (hie : h.deref p = some ie)
    (events : List (module_ev × comm_reply)) :
    ∀ q : module_qstate, q.env.modinfo = some tbl →
      ∃ q' tr, run_events x h id q events = .ok (q', tr) ∧
        (tr.filter Call.is_send).length =
          events.countP is_new + events.countP (is_upgrade x) ∧
        (tr.filter Call.is_tcp_send).length = events.countP (is_upgrade x) := by
  induction events with
  | nil => intro q _; exact ⟨q, [], rfl, rfl, rfl⟩
  | cons item rest ih =>
    intro q htbl
    obtain ⟨q1, tr1, hrun1, hmod1, hs1, ht1⟩ :=
      iter_operate_send_counts x h q item id tbl p ie htbl hslot hie
    obtain ⟨q2, tr2, hrun2, hs2, ht2⟩ := ih q1 hmod1
    refine ⟨q2, tr1 ++ tr2, ?_, ?_, ?_⟩
    · simp only [run_events, hrun1, hrun2]
    · rw [List.filter_append, List.length_append, hs1, hs2, List.countP_cons, List.countP_cons]
      omega
    · rw [List.filter_append, List.length_append, ht1, ht2, List.countP_cons]
      omega

/-- C14, as the code has it: `iter_operate` keeps no count of what it has sent.  Over a
sequence of events delivered to one query, starting with `New`, the number of sends with the
reliable-transport flag equals the number of replies that are truncated and arrived over
UDP, and the number of all sends equals that plus the number of `New` events.  So when `New`
is not delivered again and at most one reply is truncated over UDP, there is at most one
reliable send and there are at most two sends. -/
theorem run_events_send_bound (x : Externals) (h : Heap) (id : Nat) (tbl : Nat → Option Nat)
    (p : Nat) (ie : iter_env) (q : module_qstate) (r0 : comm_reply)
    (rest : List (module_ev × comm_reply))
    (htbl : q.env.modinfo = some tbl) (hslot : tbl id = some p) (hie : h.deref p = some ie) :
    ∃ q' tr, run_events x h id q ((module_ev.module_event_new, r0) :: rest) = .ok (q', tr) ∧
      (tr.filter Call.is_tcp_send).length = rest.countP (is_upgrade x) ∧
      (tr.filter Call.is_send).length =
        1 + rest.countP is_new + rest.countP (is_upgrade x) ∧
      (rest.countP is_new = 0 → rest.countP (is_upgrade x) ≤ 1 →
        (tr.filter Call.is_tcp_send).length ≤ 1 ∧ (tr.filter Call.is_send).length ≤ 2) := by
  obtain ⟨q', tr, hrun, hs, ht⟩ := run_events_send_counts x h id tbl p ie hslot hie
    ((module_ev.module_event_new, r0) :: rest) q htbl
  have hn : is_new (module_ev.module_event_new, r0) = true := rfl
  have hu : is_upgrade x (module_ev.module_event_new, r0) = false := rfl
  rw [List.countP_cons, List.countP_cons, hn, hu] at hs
  rw [List.countP_cons, hu] at ht
  simp only [if_true, Bool.false_eq_true, if_false, Nat.add_zero] at hs ht
  refine ⟨q', tr, hrun, ht, by omega, ?_⟩
  intro h1 h2
  omega

theorem run_events_send_bound_witness :
    toy_env.modinfo = some (fun i => if i = 0 then some 1 else none) ∧
    toy_heap.deref 1 = some toy_iter_env ∧
    ∃ q' tr, run_events (toy 1000) toy_heap 0 (toy_qstate [] comm_point_type.comm_udp 77)
        ((module_ev.module_event_new, toy_reply_tc) ::
          [(module_ev.module_event_reply, toy_reply_tc),
           (module_ev.module_event_reply,
             { c := { buffer := toy_pkt 60, type := comm_point_type.comm_tcp } })]) =
        .ok (q', tr) ∧
      (tr.filter Call.is_tcp_send).length ≤ 1 ∧ (tr.filter Call.is_send).length ≤ 2 :=
  ⟨rfl, by decide,
    match run_events_send_bound (toy 1000) toy_heap 0 (fun i => if i = 0 then some 1 else none)
        1 toy_iter_env (toy_qstate [] comm_point_type.comm_udp 77) toy_reply_tc
        [(module_ev.module_event_reply, toy_reply_tc),
         (module_ev.module_event_reply,
           { c := { buffer := toy_pkt 60, type := comm_point_type.comm_tcp } })]
        rfl rfl (by decide) with
    | ⟨q', tr, hrun, _, _, hbound⟩ =>
      ⟨q', tr, hrun, hbound (by decide) (by decide)⟩⟩

/-- C14 as stated fails: after `New`, two replies that are truncated and arrived over UDP give
two sends with the reliable-transport flag and three sends in all; and three `New` events
give three sends. -/
theorem repeated_events_exceed_send_bound :
    send_counts (run_events (toy 1000) toy_heap 0 (toy_qstate [] comm_point_type.comm_udp 77)
      [(module_ev.module_event_new, toy_reply_tc),
       (module_ev.module_event_reply, toy_reply_tc),
       (module_ev.module_event_reply, toy_reply_tc)]) = some (3, 2) ∧
    send_counts (run_events (toy 1000) toy_heap 0 (toy_qstate [] comm_point_type.comm_udp 77)
      [(module_ev.module_event_new, toy_reply_tc),
       (module_ev.module_event_new, toy_reply_tc),
       (module_ev.module_event_new, toy_reply_tc)]) = some (3, 0) := by
  constructor <;> rfl

end Iterator
